import Mathlib

/-!
# Verification of the ColorGrader Pro color-science core

Shallow embedding of `src/lib/color-science.ts` over the real numbers:
JavaScript number arithmetic is modelled by `ℝ` (exact real arithmetic,
no rounding), `Math.pow` by `Real.rpow`, and the `toFixed` decimal
formatting of generated program text by explicit half-up rounding
functions on `ℝ`.  The IEEE special values that can arise in the
lift/gamma/gain stage when the gamma denominator is zero are modelled
separately by the `JSVal` type, following the ECMAScript rules for
`1/0` and `Math.pow` with an infinite exponent.
-/

namespace ColorGrader

open scoped Classical

noncomputable section

/-! ## Data model (`GradingParams`, `ColorWheelValue`, `ColorBalance`) -/

structure ColorWheelValue where
  r : ℝ
  g : ℝ
  b : ℝ
  master : ℝ

structure ColorBalance where
  r : ℝ
  g : ℝ
  b : ℝ

structure GradingParams where
  exposure : ℝ
  contrast : ℝ
  contrastPivot : ℝ
  saturation : ℝ
  temperature : ℝ
  tint : ℝ
  lift : ColorWheelValue
  gamma : ColorWheelValue
  gain : ColorWheelValue
  shadows : ColorBalance
  midtones : ColorBalance
  highlights : ColorBalance

/-- `DEFAULT_PARAMS` from the source. -/
def DEFAULT_PARAMS : GradingParams where
  exposure := 0
  contrast := 0
  contrastPivot := 0.18
  saturation := 100
  temperature := 0
  tint := 0
  lift := ⟨0, 0, 0, 0⟩
  gamma := ⟨0, 0, 0, 0⟩
  gain := ⟨0, 0, 0, 0⟩
  shadows := ⟨0, 0, 0⟩
  midtones := ⟨0, 0, 0⟩
  highlights := ⟨0, 0, 0⟩

/-- The three color channels indexing the per-channel accesses `v[ch]`. -/
inductive Channel where
  | r
  | g
  | b
deriving DecidableEq

def ColorWheelValue.get (v : ColorWheelValue) : Channel → ℝ
  | Channel.r => v.r
  | Channel.g => v.g
  | Channel.b => v.b

def ColorBalance.get (v : ColorBalance) : Channel → ℝ
  | Channel.r => v.r
  | Channel.g => v.g
  | Channel.b => v.b

/-- `Math.max(0, Math.min(1, x))`, the clamp used throughout the engine. -/
def clamp01 (x : ℝ) : ℝ := max 0 (min 1 x)

/-- Rec. 709 luminance, `0.2126*r + 0.7152*g + 0.0722*b`. -/
def luma709 (r g b : ℝ) : ℝ := 0.2126 * r + 0.7152 * g + 0.0722 * b

/-- Rec. 709 luminance of an rgb triple. -/
def luma3 (c : ℝ × ℝ × ℝ) : ℝ := luma709 c.1 c.2.1 c.2.2

/-- `smoothstep` from the source: cubic Hermite of the clamped normalized
position. -/
def smoothstep (edge0 edge1 x : ℝ) : ℝ :=
  let t := clamp01 ((x - edge0) / (edge1 - edge0))
  t * t * (3 - 2 * t)

/-- Shadow weight of stage 6: `1 - smoothstep(0, 0.4, luma)`. -/
def shadowWeight (l : ℝ) : ℝ := 1 - smoothstep 0 0.4 l

/-- Midtone weight of stage 6:
`smoothstep(0, 0.4, luma) * (1 - smoothstep(0.6, 1, luma))`. -/
def midtoneWeight (l : ℝ) : ℝ := smoothstep 0 0.4 l * (1 - smoothstep 0.6 1 l)

/-- Highlight weight of stage 6: `smoothstep(0.6, 1, luma)`. -/
def highlightWeight (l : ℝ) : ℝ := smoothstep 0.6 1 l

/-- The `[shadows, midtones, highlights].some(v => v.r !== 0 || ...)`
test guarding stage 6 in both the engine and the shader template. -/
def hasSMH (p : GradingParams) : Prop :=
  (p.shadows.r ≠ 0 ∨ p.shadows.g ≠ 0 ∨ p.shadows.b ≠ 0) ∨
  (p.midtones.r ≠ 0 ∨ p.midtones.g ≠ 0 ∨ p.midtones.b ≠ 0) ∨
  (p.highlights.r ≠ 0 ∨ p.highlights.g ≠ 0 ∨ p.highlights.b ≠ 0)

/-- The `[lift, gamma, gain].some(v => ...)` test guarding the LGG block
of the FFmpeg filter-chain generator. -/
def hasLGG (p : GradingParams) : Prop :=
  (p.lift.r ≠ 0 ∨ p.lift.g ≠ 0 ∨ p.lift.b ≠ 0 ∨ p.lift.master ≠ 0) ∨
  (p.gamma.r ≠ 0 ∨ p.gamma.g ≠ 0 ∨ p.gamma.b ≠ 0 ∨ p.gamma.master ≠ 0) ∨
  (p.gain.r ≠ 0 ∨ p.gain.g ≠ 0 ∨ p.gain.b ≠ 0 ∨ p.gain.master ≠ 0)

/-! ## Transform Engine (`applyGradingToPixel`) -/

/-- Combined lift for one channel: `params.lift[ch] + params.lift.master`. -/
def liftOf (p : GradingParams) (ch : Channel) : ℝ := p.lift.get ch + p.lift.master

/-- Combined gain for one channel: `1 + params.gain[ch] + params.gain.master`. -/
def gainOf (p : GradingParams) (ch : Channel) : ℝ := 1 + p.gain.get ch + p.gain.master

/-- Combined gamma for one channel: `1 + params.gamma[ch] + params.gamma.master`. -/
def gammaOf (p : GradingParams) (ch : Channel) : ℝ := 1 + p.gamma.get ch + p.gamma.master

/-- The unclamped LGG intermediate of `applyLGG`:
`out = val + lift * (1 - val); out *= gainVal`. -/
def lggRaw (p : GradingParams) (ch : Channel) (val : ℝ) : ℝ :=
  (val + liftOf p ch * (1 - val)) * gainOf p ch

/-- `applyLGG` from `applyGradingToPixel` stage 2: the gamma power is
applied to the unclamped intermediate when `gammaVal !== 1 && out > 0`,
and the single clamp happens at the return. -/
noncomputable def applyLGG (p : GradingParams) (ch : Channel) (val : ℝ) : ℝ :=
  let gammaVal := gammaOf p ch
  let out := lggRaw p ch val
  clamp01 (if gammaVal ≠ 1 ∧ 0 < out then out ^ (1 / gammaVal) else out)

/-- Stage 1 (exposure): multiply all channels by `2^exposure`. -/
noncomputable def stage1 (p : GradingParams) (c : ℝ × ℝ × ℝ) : ℝ × ℝ × ℝ :=
  let m := (2 : ℝ) ^ p.exposure
  (c.1 * m, c.2.1 * m, c.2.2 * m)

/-- Stage 2 (lift/gamma/gain). -/
noncomputable def stage2 (p : GradingParams) (c : ℝ × ℝ × ℝ) : ℝ × ℝ × ℝ :=
  (applyLGG p Channel.r c.1, applyLGG p Channel.g c.2.1, applyLGG p Channel.b c.2.2)

/-- Stage 3 (temperature/tint), guarded by
`temperature !== 0 || tint !== 0`. -/
def stage3 (p : GradingParams) (c : ℝ × ℝ × ℝ) : ℝ × ℝ × ℝ :=
  if p.temperature ≠ 0 ∨ p.tint ≠ 0 then
    let temp := p.temperature / 100
    let tintVal := p.tint / 100
    (c.1 + temp * 0.1, c.2.1 + tintVal * 0.1 - temp * 0.02, c.2.2 - temp * 0.1)
  else c

/-- The unclamped contrast S-curve of stage 4:
`(val - pivot) * (1 + intensity*1.5) + pivot`. -/
def contrastRaw (p : GradingParams) (val : ℝ) : ℝ :=
  (val - p.contrastPivot) * (1 + p.contrast / 100 * 1.5) + p.contrastPivot

/-- Stage 4 (contrast), guarded by `contrast !== 0`; each channel is
clamped by `applyContrast`. -/
def stage4 (p : GradingParams) (c : ℝ × ℝ × ℝ) : ℝ × ℝ × ℝ :=
  if p.contrast ≠ 0 then
    (clamp01 (contrastRaw p c.1), clamp01 (contrastRaw p c.2.1), clamp01 (contrastRaw p c.2.2))
  else c

/-- Stage 5 (luminance-weighted saturation), guarded by
`saturation !== 100`. -/
def stage5 (p : GradingParams) (c : ℝ × ℝ × ℝ) : ℝ × ℝ × ℝ :=
  if p.saturation ≠ 100 then
    let sat := p.saturation / 100
    let l := luma709 c.1 c.2.1 c.2.2
    (l + sat * (c.1 - l), l + sat * (c.2.1 - l), l + sat * (c.2.2 - l))
  else c

/-- Stage 6 (shadows/midtones/highlights balance), guarded by `hasSMH`. -/
def stage6 (p : GradingParams) (c : ℝ × ℝ × ℝ) : ℝ × ℝ × ℝ :=
  if hasSMH p then
    let l := luma709 c.1 c.2.1 c.2.2
    let sw := shadowWeight l
    let mw := midtoneWeight l
    let hw := highlightWeight l
    (c.1 + p.shadows.r / 100 * sw + p.midtones.r / 100 * mw + p.highlights.r / 100 * hw,
     c.2.1 + p.shadows.g / 100 * sw + p.midtones.g / 100 * mw + p.highlights.g / 100 * hw,
     c.2.2 + p.shadows.b / 100 * sw + p.midtones.b / 100 * mw + p.highlights.b / 100 * hw)
  else c

/-- `applyGradingToPixel`: the six stages in order, then the final clamp
of all three channels to `[0,1]`. -/
noncomputable def applyGradingToPixel (p : GradingParams) (r g b : ℝ) : ℝ × ℝ × ℝ :=
  let c := stage6 p (stage5 p (stage4 p (stage3 p (stage2 p (stage1 p (r, g, b))))))
  (clamp01 c.1, clamp01 c.2.1, clamp01 c.2.2)

/-- The clamp-before-power reading of the LGG stage stated by the spec
(section 4.1 stage 2): `out = clamp01(gain_c * (value + lift_c * (1 - value)))`,
then the gamma power when `gamma_c` is not 1 and `out > 0`, then the
final clamp.  Used only to compare against the source `applyLGG`. -/
def claimLGGStage (p : GradingParams) (ch : Channel) (val : ℝ) : ℝ :=
  let gammaVal := gammaOf p ch
  let out := clamp01 (lggRaw p ch val)
  clamp01 (if gammaVal ≠ 1 ∧ 0 < out then out ^ (1 / gammaVal) else out)

/-- Declared parameter ranges, from the field comments of
`GradingParams` and the spec data-model table. -/
def InRange (p : GradingParams) : Prop :=
  (-4 ≤ p.exposure ∧ p.exposure ≤ 4) ∧
  (-100 ≤ p.contrast ∧ p.contrast ≤ 100) ∧
  (0 ≤ p.contrastPivot ∧ p.contrastPivot ≤ 1) ∧
  (0 ≤ p.saturation ∧ p.saturation ≤ 200) ∧
  (-100 ≤ p.temperature ∧ p.temperature ≤ 100) ∧
  (-100 ≤ p.tint ∧ p.tint ≤ 100) ∧
  (∀ v ∈ [p.lift, p.gamma, p.gain],
    (-1 ≤ v.r ∧ v.r ≤ 1) ∧ (-1 ≤ v.g ∧ v.g ≤ 1) ∧
    (-1 ≤ v.b ∧ v.b ≤ 1) ∧ (-1 ≤ v.master ∧ v.master ≤ 1)) ∧
  (∀ v ∈ [p.shadows, p.midtones, p.highlights],
    (-100 ≤ v.r ∧ v.r ≤ 100) ∧ (-100 ≤ v.g ∧ v.g ≤ 100) ∧ (-100 ≤ v.b ∧ v.b ≤ 100))

/-! ## Decimal formatting (`toFixed`)

JavaScript `x.toFixed(f)` picks the integer `n` minimizing the distance
between `n / 10^f` and `x`, ties toward the larger `n`; that is
`n = ⌊x * 10^f + 1/2⌋`. -/

/-- `toFixed` rounding at denominator `d`: half-up rounding of `x * d`
divided back by `d`. -/
def toFixedDen (d : ℕ) (x : ℝ) : ℝ := (⌊x * d + 1 / 2⌋ : ℤ) / d

/-- Value denoted by the 6-decimal literal `x.toFixed(6)`. -/
def toFixed6 (x : ℝ) : ℝ := toFixedDen 1000000 x

/-- Value denoted by the 3-decimal literal `x.toFixed(3)`. -/
def toFixed3 (x : ℝ) : ℝ := toFixedDen 1000 x

/-! ## Shader Program (`generateGLSLFragmentShader`)

Per-pixel semantics of the generated fragment shader, with every baked
numeric literal modelled by `toFixed6` of the expression the generator
interpolates.  GLSL `pow` on a nonnegative base is modelled by
`Real.rpow` (note `pow(0, e)` is modelled as `0` for `e ≠ 0`). -/

/-- Shader stage 1: `color *= <2^exposure baked>`. Always emitted. -/
def shStage1 (p : GradingParams) (c : ℝ × ℝ × ℝ) : ℝ × ℝ × ℝ :=
  let m := toFixed6 ((2 : ℝ) ^ p.exposure)
  (c.1 * m, c.2.1 * m, c.2.2 * m)

/-- One channel of the shader LGG block:
`color = color + lift*(1-color); color *= gain; clamp; pow`. -/
def shLGGchannel (liftv gainv gexp : ℝ) (c : ℝ) : ℝ :=
  clamp01 ((c + liftv * (1 - c)) * gainv) ^ gexp

/-- Shader stage 2 (lift/gamma/gain). Always emitted; the literals are
the channel sums and reciprocal gammas baked with `toFixed(6)`. -/
def shStage2 (p : GradingParams) (c : ℝ × ℝ × ℝ) : ℝ × ℝ × ℝ :=
  (shLGGchannel (toFixed6 (liftOf p Channel.r)) (toFixed6 (gainOf p Channel.r))
      (toFixed6 (1 / gammaOf p Channel.r)) c.1,
   shLGGchannel (toFixed6 (liftOf p Channel.g)) (toFixed6 (gainOf p Channel.g))
      (toFixed6 (1 / gammaOf p Channel.g)) c.2.1,
   shLGGchannel (toFixed6 (liftOf p Channel.b)) (toFixed6 (gainOf p Channel.b))
      (toFixed6 (1 / gammaOf p Channel.b)) c.2.2)

/-- Shader stage 3 (temperature/tint), emitted only when
`temperature !== 0 || tint !== 0`. -/
def shStage3 (p : GradingParams) (c : ℝ × ℝ × ℝ) : ℝ × ℝ × ℝ :=
  if p.temperature ≠ 0 ∨ p.tint ≠ 0 then
    let temp := toFixed6 (p.temperature / 100)
    let tintVal := toFixed6 (p.tint / 100)
    (c.1 + temp * 0.1, c.2.1 + tintVal * 0.1 - temp * 0.02, c.2.2 - temp * 0.1)
  else c

/-- Shader stage 4 (contrast), emitted only when `contrast !== 0`.
Unlike the engine, no clamp is applied after the S-curve. -/
def shStage4 (p : GradingParams) (c : ℝ × ℝ × ℝ) : ℝ × ℝ × ℝ :=
  if p.contrast ≠ 0 then
    let k := toFixed6 (p.contrast / 100)
    let pv := toFixed6 p.contrastPivot
    ((c.1 - pv) * (1 + k * 1.5) + pv,
     (c.2.1 - pv) * (1 + k * 1.5) + pv,
     (c.2.2 - pv) * (1 + k * 1.5) + pv)
  else c

/-- Shader stage 5 (saturation), emitted only when `saturation !== 100`. -/
def shStage5 (p : GradingParams) (c : ℝ × ℝ × ℝ) : ℝ × ℝ × ℝ :=
  if p.saturation ≠ 100 then
    let sat := toFixed6 (p.saturation / 100)
    let l := luma709 c.1 c.2.1 c.2.2
    (l + sat * (c.1 - l), l + sat * (c.2.1 - l), l + sat * (c.2.2 - l))
  else c

/-- Shader stage 6 (SMH balance), emitted only when some balance field
is nonzero. -/
def shStage6 (p : GradingParams) (c : ℝ × ℝ × ℝ) : ℝ × ℝ × ℝ :=
  if hasSMH p then
    let l := luma709 c.1 c.2.1 c.2.2
    let sw := shadowWeight l
    let mw := midtoneWeight l
    let hw := highlightWeight l
    (c.1 + toFixed6 (p.shadows.r / 100) * sw + toFixed6 (p.midtones.r / 100) * mw +
        toFixed6 (p.highlights.r / 100) * hw,
     c.2.1 + toFixed6 (p.shadows.g / 100) * sw + toFixed6 (p.midtones.g / 100) * mw +
        toFixed6 (p.highlights.g / 100) * hw,
     c.2.2 + toFixed6 (p.shadows.b / 100) * sw + toFixed6 (p.midtones.b / 100) * mw +
        toFixed6 (p.highlights.b / 100) * hw)
  else c

/-- Per-pixel evaluation of the generated fragment shader: the six
(conditionally emitted) stages, then the final clamp. -/
def shaderPixel (p : GradingParams) (r g b : ℝ) : ℝ × ℝ × ℝ :=
  let c := shStage6 p (shStage5 p (shStage4 p (shStage3 p (shStage2 p (shStage1 p (r, g, b))))))
  (clamp01 c.1, clamp01 c.2.1, clamp01 c.2.2)

/-- All numeric literals baked into the shader text are exact at six
decimals (no information is lost by the `toFixed(6)` formatting). -/
def BakeExact (p : GradingParams) : Prop :=
  toFixed6 ((2 : ℝ) ^ p.exposure) = (2 : ℝ) ^ p.exposure ∧
  (∀ ch : Channel, toFixed6 (liftOf p ch) = liftOf p ch) ∧
  (∀ ch : Channel, toFixed6 (gainOf p ch) = gainOf p ch) ∧
  (∀ ch : Channel, toFixed6 (1 / gammaOf p ch) = 1 / gammaOf p ch) ∧
  toFixed6 (p.temperature / 100) = p.temperature / 100 ∧
  toFixed6 (p.tint / 100) = p.tint / 100 ∧
  toFixed6 (p.contrast / 100) = p.contrast / 100 ∧
  toFixed6 p.contrastPivot = p.contrastPivot ∧
  toFixed6 (p.saturation / 100) = p.saturation / 100 ∧
  (∀ v ∈ [p.shadows, p.midtones, p.highlights],
    toFixed6 (v.r / 100) = v.r / 100 ∧ toFixed6 (v.g / 100) = v.g / 100 ∧
    toFixed6 (v.b / 100) = v.b / 100)

/-! ## Shader stage emission (`generateGLSLFragmentShader` template) -/

/-- The six stages of the transform, for talking about which stage code
the shader generator emits. -/
inductive ShaderStage where
  | exposure
  | lgg
  | temperature
  | contrast
  | saturation
  | smh
deriving DecidableEq

/-- Whether `generateGLSLFragmentShader` emits computation code for a
stage: the exposure multiply and the LGG block are interpolated
unconditionally, while stages 3 to 6 are guarded by the template
conditionals. -/
def glslStageEmitted (p : GradingParams) : ShaderStage → Prop
  | ShaderStage.exposure => True
  | ShaderStage.lgg => True
  | ShaderStage.temperature => p.temperature ≠ 0 ∨ p.tint ≠ 0
  | ShaderStage.contrast => p.contrast ≠ 0
  | ShaderStage.saturation => p.saturation ≠ 100
  | ShaderStage.smh => hasSMH p

/-- A stage has identity parameters (the neutral values of
`DEFAULT_PARAMS`). -/
def stageAtIdentity (p : GradingParams) : ShaderStage → Prop
  | ShaderStage.exposure => p.exposure = 0
  | ShaderStage.lgg =>
      (∀ v ∈ [p.lift, p.gamma, p.gain], v.r = 0 ∧ v.g = 0 ∧ v.b = 0 ∧ v.master = 0)
  | ShaderStage.temperature => p.temperature = 0 ∧ p.tint = 0
  | ShaderStage.contrast => p.contrast = 0
  | ShaderStage.saturation => p.saturation = 100
  | ShaderStage.smh =>
      (∀ v ∈ [p.shadows, p.midtones, p.highlights], v.r = 0 ∧ v.g = 0 ∧ v.b = 0)

/-! ## FFmpeg filter chain: LGG curve points
(`generateFFmpegFilterChain`, LGG block) -/

/-- The y-value of the i-th LGG curve point for one channel, before the
3-decimal formatting: `y = gain*x + lift`, clamp, power with exponent
`gamma = 1/(1 + gamma[ch] + gamma.master)` when `gamma !== 1 && y > 0`,
clamp. -/
def ffmpegLGGy (p : GradingParams) (ch : Channel) (i : ℕ) : ℝ :=
  let gexp := 1 / gammaOf p ch
  let x := (i : ℝ) / 8
  let y := clamp01 (gainOf p ch * x + liftOf p ch)
  clamp01 (if gexp ≠ 1 ∧ 0 < y then y ^ gexp else y)

/-- The formatted y-value actually emitted into the curve point string. -/
def ffmpegLGGpoint (p : GradingParams) (ch : Channel) (i : ℕ) : ℝ :=
  toFixed3 (ffmpegLGGy p ch i)

/-! ## JavaScript special-value semantics of the LGG gamma step

When `gammaVal = 0` the source computes `Math.pow(out, 1.0/gammaVal)`;
in ECMAScript `1/0` is `+Infinity` and `Math.pow(b, +Infinity)` is `NaN`
when `|b| = 1`, `+0` when `|b| < 1` and `+Infinity` when `|b| > 1`.
`Math.min` and `Math.max` propagate `NaN`. -/

/-- A JavaScript number relevant to the LGG stage: a finite real,
positive infinity, or NaN. -/
inductive JSVal where
  | num (x : ℝ)
  | posInf
  | nan
deriving DecidableEq

/-- `1.0 / gammaVal` with the ECMAScript rule `1/0 = +Infinity`. -/
def jsDivOne (gammaVal : ℝ) : JSVal :=
  if gammaVal = 0 then JSVal.posInf else JSVal.num (1 / gammaVal)

/-- `Math.pow(base, e)` for a finite base and the exponents produced by
`jsDivOne`, per the ECMAScript exponentiation rules. -/
def jsPow (base : ℝ) : JSVal → JSVal
  | JSVal.num x => JSVal.num (base ^ x)
  | JSVal.posInf =>
      if |base| = 1 then JSVal.nan
      else if |base| < 1 then JSVal.num 0
      else JSVal.posInf
  | JSVal.nan => JSVal.nan

/-- `Math.min(a, v)`: NaN propagates, `min(a, +Infinity) = a`. -/
def jsMin (a : ℝ) : JSVal → JSVal
  | JSVal.num x => JSVal.num (min a x)
  | JSVal.posInf => JSVal.num a
  | JSVal.nan => JSVal.nan

/-- `Math.max(a, v)`: NaN propagates, `max(a, +Infinity) = +Infinity`. -/
def jsMax (a : ℝ) : JSVal → JSVal
  | JSVal.num x => JSVal.num (max a x)
  | JSVal.posInf => JSVal.posInf
  | JSVal.nan => JSVal.nan

/-- `applyLGG` under JavaScript number semantics, keeping track of the
special values the gamma step can produce. -/
def applyLGGjs (p : GradingParams) (ch : Channel) (val : ℝ) : JSVal :=
  let gammaVal := gammaOf p ch
  let out := lggRaw p ch val
  let powed := if gammaVal ≠ 1 ∧ 0 < out then jsPow out (jsDivOne gammaVal) else JSVal.num out
  jsMax 0 (jsMin 1 powed)

/-- A clamped channel value: a finite real, or NaN (`none`).  After the
`Math.max(0, Math.min(1, _))` at the end of `applyLGG`, a channel can
only be finite or NaN, never infinite (`Math.min(1, Infinity) = 1`). -/
def jsValToOpt : JSVal → Option ℝ
  | JSVal.num x => some x
  | _ => none

/-- A unary JavaScript arithmetic step: every real operation applied to
NaN yields NaN. -/
def jop1 (f : ℝ → ℝ) : Option ℝ → Option ℝ
  | some x => some (f x)
  | none => none

/-- A binary JavaScript arithmetic step: NaN in either argument yields
NaN. -/
def jop2 (f : ℝ → ℝ → ℝ) : Option ℝ → Option ℝ → Option ℝ
  | some x, some y => some (f x y)
  | _, _ => none

/-- Rec. 709 luma of a channel triple under JavaScript semantics: NaN in
any channel makes the luma NaN. -/
def jluma : Option ℝ × Option ℝ × Option ℝ → Option ℝ
  | (some r, some g, some b) => some (luma709 r g b)
  | _ => none

/-- Stage 3 under JavaScript number semantics. -/
def stage3js (p : GradingParams) (c : Option ℝ × Option ℝ × Option ℝ) :
    Option ℝ × Option ℝ × Option ℝ :=
  if p.temperature ≠ 0 ∨ p.tint ≠ 0 then
    (jop1 (fun v => v + p.temperature / 100 * 0.1) c.1,
     jop1 (fun v => v + p.tint / 100 * 0.1 - p.temperature / 100 * 0.02) c.2.1,
     jop1 (fun v => v - p.temperature / 100 * 0.1) c.2.2)
  else c

/-- Stage 4 under JavaScript number semantics. -/
def stage4js (p : GradingParams) (c : Option ℝ × Option ℝ × Option ℝ) :
    Option ℝ × Option ℝ × Option ℝ :=
  if p.contrast ≠ 0 then
    (jop1 (fun v => clamp01 (contrastRaw p v)) c.1,
     jop1 (fun v => clamp01 (contrastRaw p v)) c.2.1,
     jop1 (fun v => clamp01 (contrastRaw p v)) c.2.2)
  else c

/-- Stage 5 under JavaScript number semantics. -/
def stage5js (p : GradingParams) (c : Option ℝ × Option ℝ × Option ℝ) :
    Option ℝ × Option ℝ × Option ℝ :=
  if p.saturation ≠ 100 then
    let l := jluma c
    (jop2 (fun l v => l + p.saturation / 100 * (v - l)) l c.1,
     jop2 (fun l v => l + p.saturation / 100 * (v - l)) l c.2.1,
     jop2 (fun l v => l + p.saturation / 100 * (v - l)) l c.2.2)
  else c

/-- Stage 6 under JavaScript number semantics. -/
def stage6js (p : GradingParams) (c : Option ℝ × Option ℝ × Option ℝ) :
    Option ℝ × Option ℝ × Option ℝ :=
  if hasSMH p then
    let l := jluma c
    (jop2 (fun l v => v + p.shadows.r / 100 * shadowWeight l +
        p.midtones.r / 100 * midtoneWeight l + p.highlights.r / 100 * highlightWeight l) l c.1,
     jop2 (fun l v => v + p.shadows.g / 100 * shadowWeight l +
        p.midtones.g / 100 * midtoneWeight l + p.highlights.g / 100 * highlightWeight l) l c.2.1,
     jop2 (fun l v => v + p.shadows.b / 100 * shadowWeight l +
        p.midtones.b / 100 * midtoneWeight l + p.highlights.b / 100 * highlightWeight l) l c.2.2)
  else c

/-- `applyGradingToPixel` under JavaScript number semantics: the stages
before the gamma power act on finite reals (no special value can arise
there), the gamma step may introduce NaN, and every later stage and
clamp propagates it (`none`). -/
def applyGradingToPixelJs (p : GradingParams) (r g b : ℝ) :
    Option ℝ × Option ℝ × Option ℝ :=
  let c1 := stage1 p (r, g, b)
  let c2 := (jsValToOpt (applyLGGjs p Channel.r c1.1),
             jsValToOpt (applyLGGjs p Channel.g c1.2.1),
             jsValToOpt (applyLGGjs p Channel.b c1.2.2))
  let c := stage6js p (stage5js p (stage4js p (stage3js p c2)))
  (jop1 clamp01 c.1, jop1 clamp01 c.2.1, jop1 clamp01 c.2.2)

/-! ## LUT codec (`generateCubeLUT` / `parseCubeLUT`)

The `.cube` text is modelled one line at a time, as the syntactic forms
the parser distinguishes after its trim/filter pass: comment lines
(start with `#`), blank lines, `LUT_3D_SIZE` declarations (with the
`parseInt` result of their second token, `none` for NaN), `TITLE` /
`DOMAIN_MIN` / `DOMAIN_MAX` lines, and data lines carrying the
`Number(...)`-parsed whitespace-separated fields (`none` for NaN).
Character-level lexing sits below this embedding. -/

inductive CubeLine where
  | comment
  | blank
  | sizeDecl (n : Option ℤ)
  | title
  | domainMin
  | domainMax
  | dataLine (parts : List (Option ℝ))

/-- The push guard of the parser loop:
`parts.length === 3 && !isNaN(parts[0])`. -/
def pushOk : List (Option ℝ) → Bool
  | [some _, _, _] => true
  | _ => false

/-- The parser loop over the comment/blank-filtered lines, carrying the
running declared size (`none` models a NaN from `parseInt`) and the
collected data values. -/
def parseLoop : List CubeLine → Option ℤ → List (Option ℝ) → Option ℤ × List (Option ℝ)
  | [], s, d => (s, d)
  | CubeLine.comment :: rest, s, d => parseLoop rest s d
  | CubeLine.blank :: rest, s, d => parseLoop rest s d
  | CubeLine.sizeDecl n :: rest, _, d => parseLoop rest n d
  | CubeLine.title :: rest, s, d => parseLoop rest s d
  | CubeLine.domainMin :: rest, s, d => parseLoop rest s d
  | CubeLine.domainMax :: rest, s, d => parseLoop rest s d
  | CubeLine.dataLine parts :: rest, s, d =>
      parseLoop rest s (if pushOk parts then d ++ parts else d)

/-- The final integrity check of `parseCubeLUT`:
`if (size > 0 && data.length === size*size*size*3) return {size, data}; return null`
(a NaN size compares false). -/
def checkResult : Option ℤ × List (Option ℝ) → Option (ℤ × List (Option ℝ))
  | (none, _) => none
  | (some s, d) =>
      if 0 < s ∧ (d.length : ℤ) = s * s * s * 3 then some (s, d) else none

/-- `parseCubeLUT`: run the loop, then return the grid only when the
declared size is positive and exactly `size^3` triples were collected. -/
def parseCubeLUT (ls : List CubeLine) : Option (ℤ × List (Option ℝ)) :=
  checkResult (parseLoop ls (some 0) [])

/-- The fields of a data line (empty for the other line forms). -/
def CubeLine.parts : CubeLine → List (Option ℝ)
  | CubeLine.dataLine ps => ps
  | _ => []

/-- The values a line contributes to the parsed grid: its fields when
the push guard accepts it, nothing otherwise. -/
def lineContrib (l : CubeLine) : List (Option ℝ) :=
  if pushOk l.parts then l.parts else []

/-- Component of an rgb triple by index (0 = r, 1 = g, 2 = b). -/
def tripleComp (c : ℝ × ℝ × ℝ) : ℕ → ℝ
  | 0 => c.1
  | 1 => c.2.1
  | _ => c.2.2

/-- The data lines of `generateCubeLUT`: the triple loop over the grid,
blue varying fastest, each channel evaluated by the engine and formatted
with `toFixed(6)`. -/
def lutGrid (p : GradingParams) (size : ℕ) : List CubeLine :=
  (List.range size).flatMap (fun ri =>
    (List.range size).flatMap (fun gi =>
      (List.range size).flatMap (fun bi =>
        let c := applyGradingToPixel p ((ri : ℝ) / ((size : ℝ) - 1))
          ((gi : ℝ) / ((size : ℝ) - 1)) ((bi : ℝ) / ((size : ℝ) - 1))
        [CubeLine.dataLine [some (toFixed6 c.1), some (toFixed6 c.2.1), some (toFixed6 c.2.2)]])))

/-- The flattened numeric content of the grid, in file order. -/
def lutData (p : GradingParams) (size : ℕ) : List (Option ℝ) :=
  (List.range size).flatMap (fun ri =>
    (List.range size).flatMap (fun gi =>
      (List.range size).flatMap (fun bi =>
        let c := applyGradingToPixel p ((ri : ℝ) / ((size : ℝ) - 1))
          ((gi : ℝ) / ((size : ℝ) - 1)) ((bi : ℝ) / ((size : ℝ) - 1))
        [some (toFixed6 c.1), some (toFixed6 c.2.1), some (toFixed6 c.2.2)])))

/-- `generateCubeLUT`: header lines, then one data line per grid point. -/
def generateCubeLUT (p : GradingParams) (size : ℕ) : List CubeLine :=
  [CubeLine.comment, CubeLine.title, CubeLine.sizeDecl (some size),
   CubeLine.domainMin, CubeLine.domainMax, CubeLine.blank] ++ lutGrid p size

/-- The grid lines under JavaScript number semantics: a NaN channel is
formatted by `toFixed(6)` as the token `NaN`, which `Number(...)`
parses back as NaN (`none`). -/
def lutGridJs (p : GradingParams) (size : ℕ) : List CubeLine :=
  (List.range size).flatMap (fun ri =>
    (List.range size).flatMap (fun gi =>
      (List.range size).flatMap (fun bi =>
        let c := applyGradingToPixelJs p ((ri : ℝ) / ((size : ℝ) - 1))
          ((gi : ℝ) / ((size : ℝ) - 1)) ((bi : ℝ) / ((size : ℝ) - 1))
        [CubeLine.dataLine [jop1 toFixed6 c.1, jop1 toFixed6 c.2.1, jop1 toFixed6 c.2.2]])))

/-- `generateCubeLUT` under JavaScript number semantics. -/
def generateCubeLUTjs (p : GradingParams) (size : ℕ) : List CubeLine :=
  [CubeLine.comment, CubeLine.title, CubeLine.sizeDecl (some size),
   CubeLine.domainMin, CubeLine.domainMax, CubeLine.blank] ++ lutGridJs p size

/-- The parameter bundle used by the exposure-monotonicity property:
all defaults except the exposure. -/
def expParams (e : ℝ) : GradingParams := { DEFAULT_PARAMS with exposure := e }

/-- Concrete bundle with red-channel gamma denominator -1 and red gain 2
(gamma.r = -1, gamma.master = -1, gain.r = 1, all in range). -/
def cexParamsLGG : GradingParams :=
  { DEFAULT_PARAMS with gamma := ⟨-1, 0, 0, -1⟩, gain := ⟨1, 0, 0, 0⟩ }

/-- Concrete bundle exercising the missing contrast clamp of the shader:
contrast 100, pivot 0, saturation 0. -/
def cexParamsShader : GradingParams :=
  { DEFAULT_PARAMS with contrast := 100, contrastPivot := 0, saturation := 0 }

/-- Concrete bundle with only a red lift of 0.5. -/
def cexParamsFFmpeg : GradingParams :=
  { DEFAULT_PARAMS with lift := ⟨0.5, 0, 0, 0⟩ }

/-- Concrete bundle with red gamma -0.5 (gamma denominator 0.5, exponent 2). -/
def witParamsFFmpeg : GradingParams :=
  { DEFAULT_PARAMS with gamma := ⟨-0.5, 0, 0, 0⟩ }

/-- Concrete bundle with red gamma -1, making the red gamma denominator
exactly zero. -/
def bugParamsGamma : GradingParams :=
  { DEFAULT_PARAMS with gamma := ⟨-1, 0, 0, 0⟩ }

/-- Concrete bundle whose red lift 0.0000004 is rounded to 0 by the
6-decimal shader baking while the red gamma denominator is 3
(gamma.r = 1, gamma.master = 1). -/
def cexParamsQuant : GradingParams :=
  { DEFAULT_PARAMS with lift := ⟨0.0000004, 0, 0, 0⟩, gamma := ⟨1, 0, 0, 1⟩ }

/-- A LUT text whose single data line has a numeric first field and
non-numeric second and third fields. -/
def cexLUTlines : List CubeLine :=
  [CubeLine.sizeDecl (some 1), CubeLine.dataLine [some 0.5, none, none]]

end

/-! ## Basic lemmas about the clamp, smoothstep and rounding -/

theorem clamp01_nonneg (x : ℝ) : 0 ≤ clamp01 x := le_max_left _ _

theorem clamp01_le_one (x : ℝ) : clamp01 x ≤ 1 := max_le (by norm_num) (min_le_left _ _)

theorem clamp01_eq_self (x : ℝ) (h0 : 0 ≤ x) (h1 : x ≤ 1) : clamp01 x = x := by
  rw [clamp01, min_eq_right h1, max_eq_right h0]

theorem clamp01_of_nonpos (x : ℝ) (h : x ≤ 0) : clamp01 x = 0 := by
  rw [clamp01, min_eq_right (h.trans (by norm_num)), max_eq_left h]

theorem clamp01_of_one_le (x : ℝ) (h : 1 ≤ x) : clamp01 x = 1 := by
  rw [clamp01, min_eq_left h, max_eq_right (by norm_num)]

theorem clamp01_mono {x y : ℝ} (h : x ≤ y) : clamp01 x ≤ clamp01 y :=
  max_le_max le_rfl (min_le_min le_rfl h)

theorem smoothstep_nonneg (e0 e1 x : ℝ) : 0 ≤ smoothstep e0 e1 x := by
  have h0 := clamp01_nonneg ((x - e0) / (e1 - e0))
  have h1 := clamp01_le_one ((x - e0) / (e1 - e0))
  rw [smoothstep]
  nlinarith

theorem smoothstep_le_one (e0 e1 x : ℝ) : smoothstep e0 e1 x ≤ 1 := by
  have h0 := clamp01_nonneg ((x - e0) / (e1 - e0))
  have h1 := clamp01_le_one ((x - e0) / (e1 - e0))
  rw [smoothstep]
  nlinarith [sq_nonneg (1 - clamp01 ((x - e0) / (e1 - e0)))]

theorem smoothstep_of_le (e0 e1 x : ℝ) (he : e0 < e1) (h : x ≤ e0) :
    smoothstep e0 e1 x = 0 := by
  have harg : (x - e0) / (e1 - e0) ≤ 0 :=
    div_nonpos_iff.mpr (Or.inr ⟨by linarith, by linarith⟩)
  rw [smoothstep]
  simp only [clamp01_of_nonpos _ harg]
  ring

theorem smoothstep_of_ge (e0 e1 x : ℝ) (he : e0 < e1) (h : e1 ≤ x) :
    smoothstep e0 e1 x = 1 := by
  have harg : 1 ≤ (x - e0) / (e1 - e0) := (one_le_div (by linarith)).mpr (by linarith)
  rw [smoothstep]
  simp only [clamp01_of_one_le _ harg]
  ring

theorem toFixedDen_sub_abs_le (d : ℕ) (hd : 0 < d) (x : ℝ) :
    |toFixedDen d x - x| ≤ 1 / (2 * d) := by
  have hdr : (0 : ℝ) < d := by exact_mod_cast hd
  have h1 : (⌊x * d + 1 / 2⌋ : ℝ) ≤ x * d + 1 / 2 := Int.floor_le _
  have h2 : x * d + 1 / 2 - 1 < ⌊x * d + 1 / 2⌋ := Int.sub_one_lt_floor _
  have habs : |(⌊x * d + 1 / 2⌋ : ℝ) - x * d| ≤ 1 / 2 := by
    rw [abs_le]; constructor <;> linarith
  have heq : toFixedDen d x - x = ((⌊x * d + 1 / 2⌋ : ℝ) - x * d) / d := by
    rw [toFixedDen]; field_simp; ring
  rw [heq, abs_div, abs_of_pos hdr, show (1 : ℝ) / (2 * d) = (1 / 2) / d by ring,
    div_le_div_iff_of_pos_right hdr]
  exact habs

theorem toFixedDen_fix (d : ℕ) (hd : 0 < d) (x : ℝ) (n : ℤ) (hx : x * d = n) :
    toFixedDen d x = x := by
  have hdr : (d : ℝ) ≠ 0 := by positivity
  have hfl : ⌊x * d + 1 / 2⌋ = n := by
    rw [hx, Int.floor_eq_iff]
    constructor <;> [skip; push_cast] <;> linarith
  rw [toFixedDen, hfl, ← hx, mul_div_assoc, div_self hdr, mul_one]

theorem clamp01_idem (x : ℝ) : clamp01 (clamp01 x) = clamp01 x :=
  clamp01_eq_self _ (clamp01_nonneg x) (clamp01_le_one x)

/-- At `expParams e` (all defaults but the exposure) the whole pipeline
reduces to clamping each exposure-scaled channel. -/
theorem expParams_eval (e r g b : ℝ) :
    applyGradingToPixel (expParams e) r g b =
      (clamp01 (r * (2 : ℝ) ^ e), clamp01 (g * (2 : ℝ) ^ e), clamp01 (b * (2 : ℝ) ^ e)) := by
  have hLGG : ∀ (ch : Channel) (v : ℝ), applyLGG (expParams e) ch v = clamp01 v := by
    intro ch v
    rw [applyLGG]
    cases ch <;>
      norm_num [lggRaw, liftOf, gainOf, gammaOf, expParams, DEFAULT_PARAMS, ColorWheelValue.get]
  have h3 : ∀ c, stage3 (expParams e) c = c := by
    intro c; rw [stage3]; norm_num [expParams, DEFAULT_PARAMS]
  have h4 : ∀ c, stage4 (expParams e) c = c := by
    intro c; rw [stage4]; norm_num [expParams, DEFAULT_PARAMS]
  have h5 : ∀ c, stage5 (expParams e) c = c := by
    intro c; rw [stage5]; norm_num [expParams, DEFAULT_PARAMS]
  have h6 : ∀ c, stage6 (expParams e) c = c := by
    intro c; rw [stage6]; norm_num [hasSMH, expParams, DEFAULT_PARAMS]
  rw [applyGradingToPixel, stage1]
  simp only [h3, h4, h5, h6, stage2, hLGG]
  have hexp : (expParams e).exposure = e := rfl
  simp [hexp, clamp01_idem]

/-- Running the parser loop over data lines that all pass the push
guard appends exactly their fields. -/
theorem parseLoop_data : ∀ (ls : List CubeLine) (s : Option ℤ) (d : List (Option ℝ)),
    (∀ l ∈ ls, ∃ ps, l = CubeLine.dataLine ps ∧ pushOk ps = true) →
    parseLoop ls s d = (s, d ++ ls.flatMap CubeLine.parts)
  | [], s, d, _ => by simp [parseLoop]
  | a :: t, s, d, h => by
      obtain ⟨ps, rfl, hok⟩ := h a (List.mem_cons_self a t)
      rw [List.flatMap_cons]
      simp only [parseLoop]
      rw [if_pos hok, parseLoop_data t s (d ++ ps) (fun l hl => h l (List.mem_cons_of_mem _ hl))]
      simp [CubeLine.parts, List.append_assoc]

theorem flatMap_const_length {α β : Type} (l : List α) (f : α → List β) (k : ℕ)
    (h : ∀ a ∈ l, (f a).length = k) : (l.flatMap f).length = l.length * k := by
  induction l with
  | nil => simp
  | cons a t ih =>
    rw [List.flatMap_cons, List.length_append, h a (List.mem_cons_self a t),
      ih (fun x hx => h x (List.mem_cons_of_mem _ hx)), List.length_cons]
    ring

theorem getElem?_flatMap_const {α β : Type} (l : List α) (f : α → List β) (k : ℕ)
    (h : ∀ a ∈ l, (f a).length = k) (i j : ℕ) (hi : i < l.length) (hj : j < k) :
    (l.flatMap f)[k * i + j]? = (f (l.get ⟨i, hi⟩))[j]? := by
  induction l generalizing i with
  | nil => simp at hi
  | cons a t ih =>
    have hlen : (f a).length = k := h a (List.mem_cons_self a t)
    rw [List.flatMap_cons]
    cases i with
    | zero =>
      rw [Nat.mul_zero, Nat.zero_add, List.getElem?_append_left (by omega)]
      rfl
    | succ i' =>
      have hge : (f a).length ≤ k * (i' + 1) + j := by
        rw [hlen, Nat.mul_succ]
        omega
      rw [List.getElem?_append_right hge, hlen]
      have harith : k * (i' + 1) + j - k = k * i' + j := by
        rw [Nat.mul_succ]
        omega
      rw [harith,
        ih (fun x hx => h x (List.mem_cons_of_mem _ hx)) i' (by
          simpa using Nat.lt_of_succ_lt_succ (by simpa using hi))]
      rfl

/-- Position `3*((ri*size+gi)*size+bi)+ch` of the flattened grid holds
channel `ch` of the engine evaluation at grid point `(ri, gi, bi)`,
formatted with `toFixed(6)`. -/
theorem lutData_getElem (p : GradingParams) (size : ℕ) (ri gi bi ch : ℕ)
    (hri : ri < size) (hgi : gi < size) (hbi : bi < size) (hch : ch < 3) :
    (lutData p size)[3 * ((ri * size + gi) * size + bi) + ch]? =
      some (some (toFixed6 (tripleComp
        (applyGradingToPixel p ((ri : ℝ) / ((size : ℝ) - 1)) ((gi : ℝ) / ((size : ℝ) - 1))
          ((bi : ℝ) / ((size : ℝ) - 1))) ch))) := by
  have hidx : 3 * ((ri * size + gi) * size + bi) + ch
      = size * (size * 3) * ri + (size * 3 * gi + (3 * bi + ch)) := by ring
  have hlenB : ∀ (f : ℕ → List (Option ℝ)), (∀ x, (f x).length = 3) →
      ∀ a ∈ List.range size, ((List.range size).flatMap f).length = size * 3 := by
    intro f hf a _
    rw [flatMap_const_length _ _ 3 (fun x _ => hf x), List.length_range]
  rw [lutData, hidx]
  rw [getElem?_flatMap_const]
  case h =>
    intro a _
    rw [flatMap_const_length _ _ (size * 3) ?_, List.length_range]
    intro x _
    rw [flatMap_const_length _ _ 3 ?_, List.length_range]
    intro y _
    rfl
  case hi => rw [List.length_range]; exact hri
  case hj =>
    have h1 : 3 * bi + ch < 3 * size := by omega
    calc size * 3 * gi + (3 * bi + ch) < size * 3 * gi + 3 * size := by omega
      _ = size * 3 * (gi + 1) := by ring
      _ ≤ size * 3 * size := Nat.mul_le_mul_left _ (by omega)
      _ = size * (size * 3) := by ring
  simp only [List.get_eq_getElem, List.getElem_range]
  rw [getElem?_flatMap_const]
  case h =>
    intro x _
    rw [flatMap_const_length _ _ 3 ?_, List.length_range]
    intro y _
    rfl
  case hi => rw [List.length_range]; exact hgi
  case hj => omega
  simp only [List.get_eq_getElem, List.getElem_range]
  rw [getElem?_flatMap_const]
  case h => intro y _; rfl
  case hi => rw [List.length_range]; exact hbi
  case hj => exact hch
  simp only [List.get_eq_getElem, List.getElem_range]
  interval_cases ch <;> simp [tripleComp]

/-- With a positive gamma denominator, the shader LGG channel (clamp
before power, power always applied) equals the engine LGG channel
(power on the unclamped value when applicable, clamp after) — for every
intermediate value: above 1 both sides saturate at 1, below 0 both give
0, and in between the clamps are inactive. -/
theorem shLGG_eq_applyLGG (p : GradingParams) (ch : Channel) (v : ℝ)
    (hγ : 0 < gammaOf p ch) :
    shLGGchannel (liftOf p ch) (gainOf p ch) (1 / gammaOf p ch) v = applyLGG p ch v := by
  have hexp : 0 < 1 / gammaOf p ch := one_div_pos.mpr hγ
  rw [shLGGchannel, applyLGG]
  have hraw : (v + liftOf p ch * (1 - v)) * gainOf p ch = lggRaw p ch v := by rw [lggRaw]
  rw [hraw]
  by_cases hpos : 0 < lggRaw p ch v
  · by_cases hout : lggRaw p ch v ≤ 1
    · rw [clamp01_eq_self _ hpos.le hout]
      by_cases hγ1 : gammaOf p ch = 1
      · rw [if_neg (fun h => h.1 hγ1), hγ1, div_one, Real.rpow_one,
          clamp01_eq_self _ hpos.le hout]
      · rw [if_pos ⟨hγ1, hpos⟩,
          clamp01_eq_self _ (Real.rpow_nonneg hpos.le _)
            (Real.rpow_le_one hpos.le hout hexp.le)]
    · have hgt1 : 1 < lggRaw p ch v := not_le.mp hout
      rw [clamp01_of_one_le _ hgt1.le, Real.one_rpow]
      by_cases hγ1 : gammaOf p ch = 1
      · rw [if_neg (fun h => h.1 hγ1), clamp01_of_one_le _ hgt1.le]
      · rw [if_pos ⟨hγ1, hpos⟩,
          clamp01_of_one_le _ (Real.one_le_rpow hgt1.le hexp.le)]
  · have hw0 : lggRaw p ch v ≤ 0 := not_lt.mp hpos
    rw [clamp01_of_nonpos _ hw0, if_neg (fun h => hpos h.2), clamp01_of_nonpos _ hw0]
    exact Real.zero_rpow hexp.ne'

/-- Evaluation of the `toFixed` rounding when the scaled value lies
between `n` and `n+1` after adding the rounding half. -/
theorem toFixedDen_eval (d : ℕ) (x : ℝ) (n : ℤ)
    (h1 : (n : ℝ) ≤ x * d + 1 / 2) (h2 : x * d + 1 / 2 < n + 1) :
    toFixedDen d x = n / d := by
  rw [toFixedDen, Int.floor_eq_iff.mpr ⟨h1, by exact_mod_cast h2⟩]

/-- Away from a zero gamma denominator, the JavaScript-semantics LGG
stage produces no special value and agrees with the real-valued model:
`1/gammaVal` is a finite real and the power, min and max are ordinary
real operations. -/
theorem applyLGGjs_eq_num (p : GradingParams) (ch : Channel) (v : ℝ)
    (hγ : gammaOf p ch ≠ 0) :
    applyLGGjs p ch v = JSVal.num (applyLGG p ch v) := by
  rw [applyLGGjs, applyLGG, jsDivOne, if_neg hγ]
  by_cases hc : gammaOf p ch ≠ 1 ∧ 0 < lggRaw p ch v
  · rw [if_pos hc, if_pos hc]
    simp [jsPow, jsMin, jsMax, clamp01]
  · rw [if_neg hc, if_neg hc]
    simp [jsMin, jsMax, clamp01]

/-- The JavaScript stage 3 on finite channels is the real stage 3. -/
theorem stage3js_some (p : GradingParams) (x y z : ℝ) :
    stage3js p (some x, some y, some z) =
      (some (stage3 p (x, y, z)).1, some (stage3 p (x, y, z)).2.1,
        some (stage3 p (x, y, z)).2.2) := by
  rw [stage3js, stage3]
  by_cases hc : p.temperature ≠ 0 ∨ p.tint ≠ 0
  · rw [if_pos hc, if_pos hc]
    simp [jop1]
  · rw [if_neg hc, if_neg hc]

/-- The JavaScript stage 4 on finite channels is the real stage 4. -/
theorem stage4js_some (p : GradingParams) (x y z : ℝ) :
    stage4js p (some x, some y, some z) =
      (some (stage4 p (x, y, z)).1, some (stage4 p (x, y, z)).2.1,
        some (stage4 p (x, y, z)).2.2) := by
  rw [stage4js, stage4]
  by_cases hc : p.contrast ≠ 0
  · rw [if_pos hc, if_pos hc]
    simp [jop1]
  · rw [if_neg hc, if_neg hc]

/-- The JavaScript stage 5 on finite channels is the real stage 5. -/
theorem stage5js_some (p : GradingParams) (x y z : ℝ) :
    stage5js p (some x, some y, some z) =
      (some (stage5 p (x, y, z)).1, some (stage5 p (x, y, z)).2.1,
        some (stage5 p (x, y, z)).2.2) := by
  rw [stage5js, stage5]
  by_cases hc : p.saturation ≠ 100
  · rw [if_pos hc, if_pos hc]
    simp [jluma, jop2]
  · rw [if_neg hc, if_neg hc]

/-- The JavaScript stage 6 on finite channels is the real stage 6. -/
theorem stage6js_some (p : GradingParams) (x y z : ℝ) :
    stage6js p (some x, some y, some z) =
      (some (stage6 p (x, y, z)).1, some (stage6 p (x, y, z)).2.1,
        some (stage6 p (x, y, z)).2.2) := by
  rw [stage6js, stage6]
  by_cases hc : hasSMH p
  · rw [if_pos hc, if_pos hc]
    simp [jluma, jop2]
  · rw [if_neg hc, if_neg hc]

/-- With every gamma denominator nonzero, the JavaScript-semantics
pipeline produces finite channels equal to the real-valued pipeline. -/
theorem applyGradingToPixelJs_eq (p : GradingParams) (r g b : ℝ)
    (hγ : ∀ ch, gammaOf p ch ≠ 0) :
    applyGradingToPixelJs p r g b =
      (some (applyGradingToPixel p r g b).1, some (applyGradingToPixel p r g b).2.1,
        some (applyGradingToPixel p r g b).2.2) := by
  rw [applyGradingToPixelJs, applyGradingToPixel]
  rw [applyLGGjs_eq_num p Channel.r _ (hγ Channel.r),
    applyLGGjs_eq_num p Channel.g _ (hγ Channel.g),
    applyLGGjs_eq_num p Channel.b _ (hγ Channel.b)]
  have h2 : (some (applyLGG p Channel.r (stage1 p (r, g, b)).1),
      some (applyLGG p Channel.g (stage1 p (r, g, b)).2.1),
      some (applyLGG p Channel.b (stage1 p (r, g, b)).2.2)) =
      (some (stage2 p (stage1 p (r, g, b))).1, some (stage2 p (stage1 p (r, g, b))).2.1,
        some (stage2 p (stage1 p (r, g, b))).2.2) := rfl
  simp only [jsValToOpt, h2]
  rw [show (some (stage2 p (stage1 p (r, g, b))).1, some (stage2 p (stage1 p (r, g, b))).2.1,
      some (stage2 p (stage1 p (r, g, b))).2.2) =
      ((fun c : ℝ × ℝ × ℝ => (some c.1, some c.2.1, some c.2.2)) (stage2 p (stage1 p (r, g, b))))
      from rfl]
  generalize stage2 p (stage1 p (r, g, b)) = c2
  obtain ⟨x, y, z⟩ := c2
  simp only
  rw [stage3js_some, stage4js_some]
  rw [show stage4 p (stage3 p (x, y, z)) = ((stage4 p (stage3 p (x, y, z))).1,
      (stage4 p (stage3 p (x, y, z))).2.1, (stage4 p (stage3 p (x, y, z))).2.2) from rfl]
  rw [stage5js_some]
  rw [show stage5 p ((stage4 p (stage3 p (x, y, z))).1, (stage4 p (stage3 p (x, y, z))).2.1,
      (stage4 p (stage3 p (x, y, z))).2.2) =
      ((stage5 p ((stage4 p (stage3 p (x, y, z))).1, (stage4 p (stage3 p (x, y, z))).2.1,
        (stage4 p (stage3 p (x, y, z))).2.2)).1,
       (stage5 p ((stage4 p (stage3 p (x, y, z))).1, (stage4 p (stage3 p (x, y, z))).2.1,
        (stage4 p (stage3 p (x, y, z))).2.2)).2.1,
       (stage5 p ((stage4 p (stage3 p (x, y, z))).1, (stage4 p (stage3 p (x, y, z))).2.1,
        (stage4 p (stage3 p (x, y, z))).2.2)).2.2) from rfl]
  rw [stage6js_some]
  simp [jop1]

/-- With every gamma denominator nonzero, the JavaScript-semantics
generator emits exactly the real-model LUT text. -/
theorem generateCubeLUTjs_eq (p : GradingParams) (size : ℕ)
    (hγ : ∀ ch, gammaOf p ch ≠ 0) :
    generateCubeLUTjs p size = generateCubeLUT p size := by
  rw [generateCubeLUTjs, generateCubeLUT]
  have hgrid : lutGridJs p size = lutGrid p size := by
    rw [lutGridJs, lutGrid]
    refine congrArg _ (funext fun ri => congrArg _ (funext fun gi => congrArg _
      (funext fun bi => ?_)))
    rw [applyGradingToPixelJs_eq p _ _ _ hγ]
    rfl
  rw [hgrid]

theorem parseLoop_cons_comment (l : List CubeLine) (s : Option ℤ) (d : List (Option ℝ)) :
    parseLoop (CubeLine.comment :: l) s d = parseLoop l s d := by
  simp [parseLoop]

theorem parseLoop_cons_title (l : List CubeLine) (s : Option ℤ) (d : List (Option ℝ)) :
    parseLoop (CubeLine.title :: l) s d = parseLoop l s d := by
  simp [parseLoop]

theorem parseLoop_cons_size (l : List CubeLine) (n s : Option ℤ) (d : List (Option ℝ)) :
    parseLoop (CubeLine.sizeDecl n :: l) s d = parseLoop l n d := by
  simp [parseLoop]

theorem parseLoop_cons_dmin (l : List CubeLine) (s : Option ℤ) (d : List (Option ℝ)) :
    parseLoop (CubeLine.domainMin :: l) s d = parseLoop l s d := by
  simp [parseLoop]

theorem parseLoop_cons_dmax (l : List CubeLine) (s : Option ℤ) (d : List (Option ℝ)) :
    parseLoop (CubeLine.domainMax :: l) s d = parseLoop l s d := by
  simp [parseLoop]

theorem parseLoop_cons_blank (l : List CubeLine) (s : Option ℤ) (d : List (Option ℝ)) :
    parseLoop (CubeLine.blank :: l) s d = parseLoop l s d := by
  simp [parseLoop]

theorem lineContrib_dataLine (ps : List (Option ℝ)) :
    lineContrib (CubeLine.dataLine ps) = if pushOk ps then ps else [] := by
  simp [lineContrib, CubeLine.parts]

/-- Running the parser loop over data lines appends the fields of
exactly those lines that pass the push guard. -/
theorem parseLoop_dataFilter : ∀ (ls : List CubeLine) (s : Option ℤ) (d : List (Option ℝ)),
    (∀ l ∈ ls, ∃ ps, l = CubeLine.dataLine ps) →
    parseLoop ls s d = (s, d ++ ls.flatMap lineContrib)
  | [], s, d, _ => by simp [parseLoop]
  | a :: t, s, d, h => by
      obtain ⟨ps, rfl⟩ := h a (List.mem_cons_self a t)
      rw [List.flatMap_cons, lineContrib_dataLine]
      simp only [parseLoop]
      rw [parseLoop_dataFilter t s _ (fun l hl => h l (List.mem_cons_of_mem _ hl))]
      by_cases hok : pushOk ps
      · rw [if_pos hok, if_pos hok]
        simp [List.append_assoc]
      · rw [if_neg hok, if_neg hok]
        simp

/-- Splitting a flatMap over `range 17` into the first 16 blocks and the
last one. -/
theorem flatMap_range17_split (f : ℕ → List (Option ℝ)) :
    (List.range 17).flatMap f = (List.range 16).flatMap f ++ f 16 := by
  have hr : List.range 17 = List.range 16 ++ [16] := by
    rw [← List.range_succ]
  rw [hr, List.flatMap_append, List.flatMap_singleton]

/-- The ECMAScript evaluation of the LGG stage at gamma denominator 0
and channel value 1: `Math.pow(1, Infinity)` is NaN, and the clamps
propagate it. -/
theorem applyLGGjs_bug_eval : applyLGGjs bugParamsGamma Channel.r 1 = JSVal.nan := by
  have h1 : gammaOf bugParamsGamma Channel.r = 0 := by
    norm_num [gammaOf, bugParamsGamma, DEFAULT_PARAMS, ColorWheelValue.get]
  have h2 : lggRaw bugParamsGamma Channel.r 1 = 1 := by
    norm_num [lggRaw, liftOf, gainOf, bugParamsGamma, DEFAULT_PARAMS, ColorWheelValue.get]
  rw [applyLGGjs]
  simp only [h1, h2]
  rw [if_pos ⟨by norm_num, by norm_num⟩]
  rw [jsDivOne, if_pos rfl]
  simp [jsPow, jsMin, jsMax]

/-! ## Claim theorems -/

/-- Claim C1: with the identity parameter bundle `DEFAULT_PARAMS`, the
per-pixel transform returns every in-range pixel unchanged, exactly. -/
theorem identity_transform (r g b : ℝ) (hr0 : 0 ≤ r) (hr1 : r ≤ 1)
    (hg0 : 0 ≤ g) (hg1 : g ≤ 1) (hb0 : 0 ≤ b) (hb1 : b ≤ 1) :
    applyGradingToPixel DEFAULT_PARAMS r g b = (r, g, b) := by
  have hLGG : ∀ (ch : Channel) (v : ℝ), 0 ≤ v → v ≤ 1 →
      applyLGG DEFAULT_PARAMS ch v = v := by
    intro ch v h0 h1
    rw [applyLGG]
    cases ch <;>
      norm_num [lggRaw, liftOf, gainOf, gammaOf, DEFAULT_PARAMS, ColorWheelValue.get,
        clamp01_eq_self v h0 h1]
  have h3 : ∀ c, stage3 DEFAULT_PARAMS c = c := by
    intro c; rw [stage3]; norm_num [DEFAULT_PARAMS]
  have h4 : ∀ c, stage4 DEFAULT_PARAMS c = c := by
    intro c; rw [stage4]; norm_num [DEFAULT_PARAMS]
  have h5 : ∀ c, stage5 DEFAULT_PARAMS c = c := by
    intro c; rw [stage5]; norm_num [DEFAULT_PARAMS]
  have h6 : ∀ c, stage6 DEFAULT_PARAMS c = c := by
    intro c; rw [stage6]; norm_num [hasSMH, DEFAULT_PARAMS]
  rw [applyGradingToPixel, stage1]
  rw [show DEFAULT_PARAMS.exposure = 0 from rfl, Real.rpow_zero]
  simp only [mul_one, h3, h4, h5, h6, stage2]
  simp [hLGG Channel.r r hr0 hr1, hLGG Channel.g g hg0 hg1, hLGG Channel.b b hb0 hb1,
    clamp01_eq_self r hr0 hr1, clamp01_eq_self g hg0 hg1, clamp01_eq_self b hb0 hb1]

/-- Witness for C1 at the pixel (1/2, 1/3, 1/4). -/
theorem identity_transform_witness :
    (0 ≤ (1 / 2 : ℝ) ∧ (1 / 2 : ℝ) ≤ 1) ∧
    applyGradingToPixel DEFAULT_PARAMS (1 / 2) (1 / 3) (1 / 4) = (1 / 2, 1 / 3, 1 / 4) :=
  ⟨by norm_num,
    identity_transform (1 / 2) (1 / 3) (1 / 4) (by norm_num) (by norm_num) (by norm_num)
      (by norm_num) (by norm_num) (by norm_num)⟩

/-- Claim C8: for luma in `[0,1]` the three stage-6 weights each lie in
`[0,1]`, and away from the 0.4 to 0.6 transition region their sum lies
in `[0,1]` (it equals 1 there). -/
theorem smoothstep_weight_partition (l : ℝ) (_h0 : 0 ≤ l) (_h1 : l ≤ 1) :
    (0 ≤ shadowWeight l ∧ shadowWeight l ≤ 1) ∧
    (0 ≤ midtoneWeight l ∧ midtoneWeight l ≤ 1) ∧
    (0 ≤ highlightWeight l ∧ highlightWeight l ≤ 1) ∧
    ((l ≤ 0.4 ∨ 0.6 ≤ l) →
      0 ≤ shadowWeight l + midtoneWeight l + highlightWeight l ∧
      shadowWeight l + midtoneWeight l + highlightWeight l ≤ 1) := by
  have a0 := smoothstep_nonneg 0 0.4 l
  have a1 := smoothstep_le_one 0 0.4 l
  have b0 := smoothstep_nonneg 0.6 1 l
  have b1 := smoothstep_le_one 0.6 1 l
  refine ⟨⟨by rw [shadowWeight]; linarith, by rw [shadowWeight]; linarith⟩,
    ⟨mul_nonneg a0 (by linarith), mul_le_one₀ a1 (by linarith) (by linarith)⟩,
    ⟨b0, b1⟩, ?_⟩
  rintro (hc | hc)
  · have hb : smoothstep 0.6 1 l = 0 := smoothstep_of_le 0.6 1 l (by norm_num) (by linarith)
    have hsum : shadowWeight l + midtoneWeight l + highlightWeight l = 1 := by
      rw [shadowWeight, midtoneWeight, highlightWeight, hb]; ring
    rw [hsum]; norm_num
  · have ha : smoothstep 0 0.4 l = 1 := smoothstep_of_ge 0 0.4 l (by norm_num) (by linarith)
    have hsum : shadowWeight l + midtoneWeight l + highlightWeight l = 1 := by
      rw [shadowWeight, midtoneWeight, highlightWeight, ha]; ring
    rw [hsum]; norm_num

/-- Counterexample to C3 as stated: with red gamma denominator -1 and
red gain 2, the engine LGG stage maps 1 to 1/2, while the clamp-before-
power formulation of the claim maps 1 to 1. -/
theorem lgg_clamp_order_counterexample :
    applyLGG cexParamsLGG Channel.r 1 = 1 / 2 ∧
    claimLGGStage cexParamsLGG Channel.r 1 = 1 := by
  have h1 : gammaOf cexParamsLGG Channel.r = -1 := by
    norm_num [gammaOf, cexParamsLGG, DEFAULT_PARAMS, ColorWheelValue.get]
  have h2 : lggRaw cexParamsLGG Channel.r 1 = 2 := by
    norm_num [lggRaw, liftOf, gainOf, cexParamsLGG, DEFAULT_PARAMS, ColorWheelValue.get]
  have hpow : (2 : ℝ) ^ (1 / (-1) : ℝ) = 1 / 2 := by
    rw [show (1 / (-1) : ℝ) = ((-1 : ℤ) : ℝ) by norm_num, Real.rpow_intCast]
    norm_num
  constructor
  · rw [applyLGG]
    simp only [h1, h2]
    rw [if_pos ⟨by norm_num, by norm_num⟩, hpow]
    exact clamp01_eq_self _ (by norm_num) (by norm_num)
  · rw [claimLGGStage]
    simp only [h1, h2]
    rw [clamp01_of_one_le 2 (by norm_num)]
    rw [if_pos ⟨by norm_num, by norm_num⟩, Real.one_rpow]
    exact clamp01_of_one_le 1 le_rfl

/-- Claim C3 amended: for every channel whose gamma denominator is
nonzero (the region where the stage is NaN-free — at denominator 0 the
program can return NaN, see C10), the engine LGG stage agrees with the
ECMAScript-semantics evaluation, clamps only at its return (after the
gamma power) with result in `[0,1]`, and agrees with the spec's
clamp-before-power formulation whenever the unclamped intermediate does
not exceed 1. -/
theorem lgg_clamp_order_amended (p : GradingParams) (ch : Channel) (val : ℝ)
    (hγ : gammaOf p ch ≠ 0) (hout : lggRaw p ch val ≤ 1) :
    applyLGGjs p ch val = JSVal.num (applyLGG p ch val) ∧
    (0 ≤ applyLGG p ch val ∧ applyLGG p ch val ≤ 1) ∧
    applyLGG p ch val = claimLGGStage p ch val := by
  refine ⟨applyLGGjs_eq_num p ch val hγ, ⟨clamp01_nonneg _, clamp01_le_one _⟩, ?_⟩
  rw [applyLGG, claimLGGStage]
  by_cases hpos : 0 < lggRaw p ch val
  · simp only [clamp01_eq_self _ hpos.le hout]
  · simp only [clamp01_of_nonpos _ (not_lt.mp hpos)]
    rw [if_neg (fun h => hpos h.2), if_neg (fun h => lt_irrefl 0 h.2)]
    rw [clamp01_of_nonpos _ (not_lt.mp hpos), clamp01_of_nonpos 0 le_rfl]

/-- Witness for the amended C3 at the identity bundle and value 1/2. -/
theorem lgg_clamp_order_amended_witness :
    gammaOf DEFAULT_PARAMS Channel.r ≠ 0 ∧
    lggRaw DEFAULT_PARAMS Channel.r (1 / 2) ≤ 1 ∧
    applyLGGjs DEFAULT_PARAMS Channel.r (1 / 2) =
      JSVal.num (applyLGG DEFAULT_PARAMS Channel.r (1 / 2)) ∧
    applyLGG DEFAULT_PARAMS Channel.r (1 / 2) =
      claimLGGStage DEFAULT_PARAMS Channel.r (1 / 2) := by
  have hγ : gammaOf DEFAULT_PARAMS Channel.r ≠ 0 := by
    norm_num [gammaOf, DEFAULT_PARAMS, ColorWheelValue.get]
  have h : lggRaw DEFAULT_PARAMS Channel.r (1 / 2) ≤ 1 := by
    norm_num [lggRaw, liftOf, gainOf, DEFAULT_PARAMS, ColorWheelValue.get]
  obtain ⟨h1, -, h3⟩ := lgg_clamp_order_amended DEFAULT_PARAMS Channel.r (1 / 2) hγ h
  exact ⟨hγ, h, h1, h3⟩

/-- Claim C10: with gamma.r = -1 (in the declared range) the red gamma
denominator is exactly 0, and on the red channel value 1 the source
computes Math.pow(1, 1/0) = Math.pow(1, Infinity) = NaN under the
ECMAScript rules, which the clamps propagate: the stage returns NaN,
contradicting the claimed totality. -/
theorem lgg_nan_bug :
    gammaOf bugParamsGamma Channel.r = 0 ∧
    applyLGGjs bugParamsGamma Channel.r 1 = JSVal.nan := by
  refine ⟨?_, applyLGGjs_bug_eval⟩
  norm_num [gammaOf, bugParamsGamma, DEFAULT_PARAMS, ColorWheelValue.get]

/-- Counterexample to C7 as stated: at the identity bundle the exposure
stage has identity parameters, yet the shader generator still emits its
multiply (the exposure and LGG blocks are unconditional in the
template). -/
theorem shader_emission_counterexample :
    stageAtIdentity DEFAULT_PARAMS ShaderStage.exposure ∧
    glslStageEmitted DEFAULT_PARAMS ShaderStage.exposure :=
  ⟨rfl, trivial⟩

/-- Claim C7 amended: stages 3 to 6 (temperature, contrast, saturation,
SMH) are emitted exactly when their parameters are not at identity,
while the exposure and LGG stages are always emitted. -/
theorem shader_emission_amended (p : GradingParams) :
    (∀ st : ShaderStage, st ≠ ShaderStage.exposure → st ≠ ShaderStage.lgg →
      (glslStageEmitted p st ↔ ¬ stageAtIdentity p st)) ∧
    glslStageEmitted p ShaderStage.exposure ∧ glslStageEmitted p ShaderStage.lgg := by
  refine ⟨?_, trivial, trivial⟩
  intro st h1 h2
  cases st with
  | exposure => exact absurd rfl h1
  | lgg => exact absurd rfl h2
  | temperature => simp [glslStageEmitted, stageAtIdentity]; tauto
  | contrast => simp [glslStageEmitted, stageAtIdentity]
  | saturation => simp [glslStageEmitted, stageAtIdentity]
  | smh =>
      simp only [glslStageEmitted, stageAtIdentity, hasSMH, List.mem_cons,
        List.not_mem_nil, or_false, forall_eq_or_imp, forall_eq]
      tauto

/-- Witness for the amended C7: at the identity bundle the contrast
stage is not emitted. -/
theorem shader_emission_amended_witness :
    ¬ glslStageEmitted DEFAULT_PARAMS ShaderStage.contrast ∧
    stageAtIdentity DEFAULT_PARAMS ShaderStage.contrast := by
  have h := (shader_emission_amended DEFAULT_PARAMS).1 ShaderStage.contrast
    (by simp) (by simp)
  have hid : stageAtIdentity DEFAULT_PARAMS ShaderStage.contrast := rfl
  exact ⟨fun he => (h.mp he) hid, hid⟩

/-- Counterexample to C4 as stated: with only lift.r = 0.5, the sample
point at x = 4/8 of the generated red curve is 1.000 (the generator
computes gain*x + lift), while the engine LGG formula gives 0.75 —
far beyond the 3-decimal formatting tolerance. -/
theorem ffmpeg_lgg_counterexample :
    hasLGG cexParamsFFmpeg ∧
    1 / 2000 < |ffmpegLGGpoint cexParamsFFmpeg Channel.r 4 -
      applyLGG cexParamsFFmpeg Channel.r ((4 : ℝ) / 8)| := by
  have hg : gammaOf cexParamsFFmpeg Channel.r = 1 := by
    norm_num [gammaOf, cexParamsFFmpeg, DEFAULT_PARAMS, ColorWheelValue.get]
  constructor
  · rw [hasLGG]
    norm_num [cexParamsFFmpeg, DEFAULT_PARAMS]
  · have hgain : gainOf cexParamsFFmpeg Channel.r = 1 := by
      norm_num [gainOf, cexParamsFFmpeg, DEFAULT_PARAMS, ColorWheelValue.get]
    have hlift2 : liftOf cexParamsFFmpeg Channel.r = 1 / 2 := by
      norm_num [liftOf, cexParamsFFmpeg, DEFAULT_PARAMS, ColorWheelValue.get]
    have hy : ffmpegLGGy cexParamsFFmpeg Channel.r 4 = 1 := by
      rw [ffmpegLGGy]
      simp only [hg, hgain, hlift2]
      rw [show (1 : ℝ) * (((4 : ℕ) : ℝ) / 8) + 1 / 2 = 1 by norm_num]
      rw [clamp01_of_one_le 1 le_rfl]
      rw [if_neg (by norm_num)]
      exact clamp01_of_one_le 1 le_rfl
    have hpoint : ffmpegLGGpoint cexParamsFFmpeg Channel.r 4 = 1 := by
      rw [ffmpegLGGpoint, hy, toFixed3]
      exact toFixedDen_fix 1000 (by norm_num) 1 1000 (by norm_num)
    have hraw : lggRaw cexParamsFFmpeg Channel.r ((4 : ℝ) / 8) = 3 / 4 := by
      norm_num [lggRaw, liftOf, gainOf, cexParamsFFmpeg, DEFAULT_PARAMS, ColorWheelValue.get]
    have ha : applyLGG cexParamsFFmpeg Channel.r ((4 : ℝ) / 8) = 3 / 4 := by
      rw [applyLGG]
      simp only [hg, hraw]
      rw [if_neg (by norm_num)]
      exact clamp01_eq_self _ (by norm_num) (by norm_num)
    rw [hpoint, ha]
    rw [show (1 : ℝ) - 3 / 4 = 1 / 4 by norm_num, abs_of_nonneg (by norm_num : (0:ℝ) ≤ 1/4)]
    norm_num

/-- Claim C4 amended: the generated curve points follow the generator's
own CDL-style formula gain*x + lift (clamped before the gamma power),
not the engine formula; they match the engine LGG at x = i/8 up to the
3-decimal formatting whenever the channel lift is zero, the gamma
denominator is positive, and gain*x does not exceed 1. -/
theorem ffmpeg_lgg_amended (p : GradingParams) (ch : Channel) (i : ℕ)
    (_hlgg : hasLGG p) (_hi : i ≤ 8)
    (hlift : liftOf p ch = 0)
    (hγ : 0 < gammaOf p ch)
    (hgx : gainOf p ch * ((i : ℝ) / 8) ≤ 1) :
    |ffmpegLGGpoint p ch i - applyLGG p ch ((i : ℝ) / 8)| ≤ 1 / 2000 := by
  have hiff : (1 / gammaOf p ch ≠ 1) ↔ (gammaOf p ch ≠ 1) := by
    constructor
    · intro h heq
      exact h (by rw [heq]; norm_num)
    · intro h heq'
      rw [div_eq_one_iff_eq (ne_of_gt hγ)] at heq'
      exact h heq'.symm
  have hraw : lggRaw p ch ((i : ℝ) / 8) = gainOf p ch * ((i : ℝ) / 8) := by
    rw [lggRaw, hlift]; ring
  have hval : ffmpegLGGy p ch i = applyLGG p ch ((i : ℝ) / 8) := by
    rw [ffmpegLGGy, applyLGG, hraw, hlift, add_zero]
    by_cases hpos : 0 < gainOf p ch * ((i : ℝ) / 8)
    · rw [clamp01_eq_self _ hpos.le hgx]
      by_cases hγ1 : gammaOf p ch = 1
      · rw [if_neg (fun h => (hiff.mp h.1) hγ1), if_neg (fun h => h.1 hγ1)]
      · rw [if_pos ⟨hiff.mpr hγ1, hpos⟩, if_pos ⟨hγ1, hpos⟩]
    · have hw0 : gainOf p ch * ((i : ℝ) / 8) ≤ 0 := not_lt.mp hpos
      rw [clamp01_of_nonpos _ hw0,
        if_neg (fun h => lt_irrefl 0 h.2), if_neg (fun h => hpos h.2),
        clamp01_of_nonpos _ hw0, clamp01_of_nonpos 0 le_rfl]
  rw [ffmpegLGGpoint, hval, toFixed3]
  have hb := toFixedDen_sub_abs_le 1000 (by norm_num) (applyLGG p ch ((i : ℝ) / 8))
  calc |toFixedDen 1000 (applyLGG p ch ((i : ℝ) / 8)) - applyLGG p ch ((i : ℝ) / 8)|
      ≤ 1 / (2 * (1000 : ℕ)) := hb
    _ ≤ 1 / 2000 := by norm_num

/-- Witness for the amended C4: red gamma -0.5 (denominator 1/2,
exponent 2), sample i = 4. -/
theorem ffmpeg_lgg_amended_witness :
    hasLGG witParamsFFmpeg ∧
    liftOf witParamsFFmpeg Channel.r = 0 ∧
    0 < gammaOf witParamsFFmpeg Channel.r ∧
    |ffmpegLGGpoint witParamsFFmpeg Channel.r 4 -
      applyLGG witParamsFFmpeg Channel.r ((4 : ℝ) / 8)| ≤ 1 / 2000 := by
  have h1 : hasLGG witParamsFFmpeg := by
    rw [hasLGG]; norm_num [witParamsFFmpeg, DEFAULT_PARAMS]
  have h2 : liftOf witParamsFFmpeg Channel.r = 0 := by
    norm_num [liftOf, witParamsFFmpeg, DEFAULT_PARAMS, ColorWheelValue.get]
  have h3 : 0 < gammaOf witParamsFFmpeg Channel.r := by
    norm_num [gammaOf, witParamsFFmpeg, DEFAULT_PARAMS, ColorWheelValue.get]
  have h4 : gainOf witParamsFFmpeg Channel.r * ((4 : ℝ) / 8) ≤ 1 := by
    norm_num [gainOf, witParamsFFmpeg, DEFAULT_PARAMS, ColorWheelValue.get]
  exact ⟨h1, h2, h3, ffmpeg_lgg_amended witParamsFFmpeg Channel.r 4 h1 (by norm_num) h2 h3 h4⟩

/-- Claim C9: with all parameters at identity except exposure, the
output luma is monotone in the exposure, and strictly increasing on a
non-black pixel when no positive channel is pinned at the upper clamp
bound. -/
theorem exposure_monotone (r g b e1 e2 : ℝ)
    (hr : 0 ≤ r ∧ r ≤ 1) (hg : 0 ≤ g ∧ g ≤ 1) (hb : 0 ≤ b ∧ b ≤ 1)
    (hnb : ¬(r = 0 ∧ g = 0 ∧ b = 0))
    (_he1 : -4 ≤ e1) (_he2 : e2 ≤ 4) (hlt : e1 < e2) :
    luma3 (applyGradingToPixel (expParams e1) r g b) ≤
      luma3 (applyGradingToPixel (expParams e2) r g b) ∧
    ((r = 0 ∨ r * (2 : ℝ) ^ e2 ≤ 1) → (g = 0 ∨ g * (2 : ℝ) ^ e2 ≤ 1) →
     (b = 0 ∨ b * (2 : ℝ) ^ e2 ≤ 1) →
      luma3 (applyGradingToPixel (expParams e1) r g b) <
        luma3 (applyGradingToPixel (expParams e2) r g b)) := by
  obtain ⟨hr0, hr1⟩ := hr
  obtain ⟨hg0, hg1⟩ := hg
  obtain ⟨hb0, hb1⟩ := hb
  have hmono : (2 : ℝ) ^ e1 < (2 : ℝ) ^ e2 :=
    (Real.rpow_lt_rpow_left_iff (by norm_num : (1 : ℝ) < 2)).mpr hlt
  have hpos1 : (0 : ℝ) < (2 : ℝ) ^ e1 := Real.rpow_pos_of_pos (by norm_num) _
  have m1 : clamp01 (r * (2 : ℝ) ^ e1) ≤ clamp01 (r * (2 : ℝ) ^ e2) :=
    clamp01_mono (mul_le_mul_of_nonneg_left hmono.le hr0)
  have m2 : clamp01 (g * (2 : ℝ) ^ e1) ≤ clamp01 (g * (2 : ℝ) ^ e2) :=
    clamp01_mono (mul_le_mul_of_nonneg_left hmono.le hg0)
  have m3 : clamp01 (b * (2 : ℝ) ^ e1) ≤ clamp01 (b * (2 : ℝ) ^ e2) :=
    clamp01_mono (mul_le_mul_of_nonneg_left hmono.le hb0)
  have key : ∀ c : ℝ, 0 < c → c * (2 : ℝ) ^ e2 ≤ 1 →
      clamp01 (c * (2 : ℝ) ^ e1) < clamp01 (c * (2 : ℝ) ^ e2) := by
    intro c hc hcle
    have h1e : c * (2 : ℝ) ^ e1 < c * (2 : ℝ) ^ e2 := (mul_lt_mul_left hc).mpr hmono
    rw [clamp01_eq_self _ (mul_nonneg hc.le hpos1.le) (h1e.le.trans hcle),
      clamp01_eq_self _ (mul_nonneg hc.le (hpos1.trans hmono).le) hcle]
    exact h1e
  rw [expParams_eval, expParams_eval]
  constructor
  · simp only [luma3, luma709]
    linarith [m1, m2, m3]
  · intro hra hga hba
    have hcases : 0 < r ∨ 0 < g ∨ 0 < b := by
      by_contra hc
      push_neg at hc
      exact hnb ⟨le_antisymm hc.1 hr0, le_antisymm hc.2.1 hg0, le_antisymm hc.2.2 hb0⟩
    simp only [luma3, luma709]
    rcases hcases with hp | hp | hp
    · rcases hra with h | h
      · exact absurd h (ne_of_gt hp)
      · linarith [key r hp h, m2, m3]
    · rcases hga with h | h
      · exact absurd h (ne_of_gt hp)
      · linarith [key g hp h, m1, m3]
    · rcases hba with h | h
      · exact absurd h (ne_of_gt hp)
      · linarith [key b hp h, m1, m2]

/-- Witness for C9 at pixel (1/4, 0, 0), exposures 0 and 1. -/
theorem exposure_monotone_witness :
    ¬((1 / 4 : ℝ) = 0 ∧ (0 : ℝ) = 0 ∧ (0 : ℝ) = 0) ∧
    luma3 (applyGradingToPixel (expParams 0) (1 / 4) 0 0) <
      luma3 (applyGradingToPixel (expParams 1) (1 / 4) 0 0) := by
  refine ⟨by norm_num, ?_⟩
  have h := (exposure_monotone (1 / 4) 0 0 0 1 ⟨by norm_num, by norm_num⟩
    ⟨le_rfl, by norm_num⟩ ⟨le_rfl, by norm_num⟩ (by norm_num)
    (by norm_num) (by norm_num) (by norm_num)).2
  apply h
  · right
    rw [Real.rpow_one]
    norm_num
  · left; rfl
  · left; rfl

/-- Counterexample to C6 as stated: a body line whose first field is
numeric but whose second and third fields are non-numeric passes the
parser guard (only `parts[0]` is NaN-checked), so the text is accepted
and the NaN values are stored rather than rejected. -/
theorem lut_parse_nan_counterexample :
    parseCubeLUT cexLUTlines = some (1, [some 0.5, none, none]) := by
  have hloop : parseLoop cexLUTlines (some 0) [] = (some 1, [some 0.5, none, none]) := by
    simp [cexLUTlines, parseLoop, pushOk]
  rw [parseCubeLUT, hloop, checkResult]
  norm_num

/-- Claim C6 amended: the parser returns null whenever the declared size
is NaN, missing (still 0), or nonpositive, or the number of collected
values differs from `size^3 * 3`; in particular a declared size of 17
with fewer than `17^3` collected triples yields null.  (A data line with
a numeric first field but non-numeric later fields is nonetheless
accepted, per the counterexample.) -/
theorem lut_parse_integrity_amended (ls : List CubeLine) :
    ((parseLoop ls (some 0) []).1 = none → parseCubeLUT ls = none) ∧
    (∀ s : ℤ, (parseLoop ls (some 0) []).1 = some s → s ≤ 0 → parseCubeLUT ls = none) ∧
    (∀ s : ℤ, (parseLoop ls (some 0) []).1 = some s →
      ((parseLoop ls (some 0) []).2.length : ℤ) ≠ s * s * s * 3 → parseCubeLUT ls = none) ∧
    ((parseLoop ls (some 0) []).1 = some 17 →
      (parseLoop ls (some 0) []).2.length < 17 * 17 * 17 * 3 → parseCubeLUT ls = none) := by
  rcases hE : parseLoop ls (some 0) [] with ⟨os, d⟩
  rw [parseCubeLUT, hE]
  simp only [hE]
  cases os with
  | none => simp [checkResult]
  | some s =>
      refine ⟨by simp, ?_, ?_, ?_⟩
      · intro s' hs' hle
        obtain rfl : s = s' := Option.some.inj (by simpa using hs')
        rw [checkResult, if_neg (fun hc => absurd hc.1 (not_lt.mpr hle))]
      · intro s' hs' hne
        obtain rfl : s = s' := Option.some.inj (by simpa using hs')
        rw [checkResult, if_neg (fun hc => hne (by simpa using hc.2))]
      · intro hs' hlen
        obtain rfl : s = 17 := Option.some.inj (by simpa using hs')
        rw [checkResult, if_neg ?_]
        rintro ⟨-, hlen3⟩
        have : d.length = 17 * 17 * 17 * 3 := by exact_mod_cast hlen3
        omega

/-- Witness for the amended C6: a file declaring size 17 with no data
lines parses to null. -/
theorem lut_parse_integrity_amended_witness :
    parseCubeLUT [CubeLine.sizeDecl (some 17)] = none := by
  apply (lut_parse_integrity_amended [CubeLine.sizeDecl (some 17)]).2.2.2
  · simp [parseLoop]
  · simp [parseLoop]

/-- Counterexample to C5 as stated: with gamma.r = -1 (in the declared
range) the red gamma denominator is 0, so at every grid point with
red = 1 the program computes Math.pow(1, Infinity) = NaN; those 289
lines are formatted as NaN tokens, fail the parser guard
!isNaN(parts[0]), the collected count falls short of 17^3*3, and
parseCubeLUT returns null — not the claimed non-null grid. -/
theorem lut_nan_counterexample :
    parseCubeLUT (generateCubeLUTjs bugParamsGamma 17) = none := by
  have c0 : clamp01 0 = 0 := clamp01_of_nonpos 0 le_rfl
  have h1st : ∀ c, stage1 bugParamsGamma c = c := by
    intro c
    rw [stage1]
    norm_num [bugParamsGamma, DEFAULT_PARAMS, Real.rpow_zero]
  have h3js : ∀ c, stage3js bugParamsGamma c = c := by
    intro c; rw [stage3js]; norm_num [bugParamsGamma, DEFAULT_PARAMS]
  have h4js : ∀ c, stage4js bugParamsGamma c = c := by
    intro c; rw [stage4js]; norm_num [bugParamsGamma, DEFAULT_PARAMS]
  have h5js : ∀ c, stage5js bugParamsGamma c = c := by
    intro c; rw [stage5js]; norm_num [bugParamsGamma, DEFAULT_PARAMS]
  have h6js : ∀ c, stage6js bugParamsGamma c = c := by
    intro c; rw [stage6js]; norm_num [hasSMH, bugParamsGamma, DEFAULT_PARAMS]
  have hfirst : ∀ x y z : ℝ, (applyGradingToPixelJs bugParamsGamma x y z).1 =
      jop1 clamp01 (jsValToOpt (applyLGGjs bugParamsGamma Channel.r x)) := by
    intro x y z
    rw [applyGradingToPixelJs]
    simp only [h1st, h3js, h4js, h5js, h6js]
  have hLGGr_small : ∀ x : ℝ, 0 ≤ x → x < 1 →
      applyLGGjs bugParamsGamma Channel.r x = JSVal.num 0 := by
    intro x hx0 hx1
    have hγ0 : gammaOf bugParamsGamma Channel.r = 0 := by
      norm_num [gammaOf, bugParamsGamma, DEFAULT_PARAMS, ColorWheelValue.get]
    have hraw : lggRaw bugParamsGamma Channel.r x = x := by
      rw [lggRaw]
      norm_num [liftOf, gainOf, bugParamsGamma, DEFAULT_PARAMS, ColorWheelValue.get]
    rw [applyLGGjs]
    simp only [hγ0, hraw]
    by_cases hxp : 0 < x
    · rw [if_pos ⟨by norm_num, hxp⟩, jsDivOne, if_pos rfl]
      simp only [jsPow]
      rw [if_neg (by rw [abs_of_nonneg hx0]; exact ne_of_lt hx1),
        if_pos (by rw [abs_of_nonneg hx0]; exact hx1)]
      simp [jsMin, jsMax]
    · have hx00 : x = 0 := le_antisymm (not_lt.mp hxp) hx0
      rw [if_neg (fun h => hxp h.2), hx00]
      simp [jsMin, jsMax]
  have hsome : ∀ x y z : ℝ, 0 ≤ x → x < 1 →
      (applyGradingToPixelJs bugParamsGamma x y z).1 = some 0 := by
    intro x y z hx0 hx1
    rw [hfirst, hLGGr_small x hx0 hx1]
    show some (clamp01 0) = some 0
    rw [c0]
  have hnone : ∀ y z : ℝ, (applyGradingToPixelJs bugParamsGamma 1 y z).1 = none := by
    intro y z
    rw [hfirst, applyLGGjs_bug_eval]
    rfl
  have hmem : ∀ l ∈ lutGridJs bugParamsGamma 17, ∃ ps, l = CubeLine.dataLine ps := by
    intro l hl
    rw [lutGridJs] at hl
    simp only [List.mem_flatMap, List.mem_singleton] at hl
    obtain ⟨ri, -, gi, -, bi, -, hl⟩ := hl
    exact ⟨_, hl⟩
  have hloop : parseLoop (generateCubeLUTjs bugParamsGamma 17) (some 0) [] =
      (some ((17 : ℕ) : ℤ), (lutGridJs bugParamsGamma 17).flatMap lineContrib) := by
    rw [generateCubeLUTjs]
    simp only [List.cons_append, List.nil_append]
    rw [parseLoop_cons_comment, parseLoop_cons_title, parseLoop_cons_size,
      parseLoop_cons_dmin, parseLoop_cons_dmax, parseLoop_cons_blank,
      parseLoop_dataFilter _ _ _ hmem, List.nil_append]
  have h16 : ((17 : ℕ) : ℝ) - 1 = 16 := by norm_num
  have hlen : ((lutGridJs bugParamsGamma 17).flatMap lineContrib).length = 13872 := by
    rw [lutGridJs]
    simp only [List.flatMap_assoc, List.flatMap_singleton, lineContrib_dataLine, h16]
    rw [flatMap_range17_split, List.length_append,
      flatMap_const_length _ _ 867 ?_, List.length_range]
    · -- the last (ri = 16) block contributes nothing
      rw [flatMap_const_length _ _ 0 ?_, List.length_range]
      intro gi _
      rw [flatMap_const_length _ _ 0 ?_, List.length_range]
      intro bi _
      rw [show ((16 : ℕ) : ℝ) / 16 = 1 by norm_num, hnone]
      simp [jop1, pushOk]
    · -- the first 16 blocks have 17*17 accepted lines of 3 values each
      intro ri hri
      have hrilt : ri < 16 := List.mem_range.mp hri
      rw [flatMap_const_length _ _ 51 ?_, List.length_range]
      intro gi _
      rw [flatMap_const_length _ _ 3 ?_, List.length_range]
      intro bi _
      rw [hsome ((ri : ℝ) / 16) _ _ (by positivity)
        ((div_lt_one (by norm_num)).mpr (by exact_mod_cast hrilt))]
      simp [jop1, pushOk]
  have hfalse : ¬(0 < ((17 : ℕ) : ℤ) ∧
      (((lutGridJs bugParamsGamma 17).flatMap lineContrib).length : ℤ) =
        ((17 : ℕ) : ℤ) * ((17 : ℕ) : ℤ) * ((17 : ℕ) : ℤ) * 3) := by
    rintro ⟨-, h⟩
    rw [hlen] at h
    norm_num at h
  rw [parseCubeLUT, hloop, checkResult, if_neg hfalse]

/-- Claim C5 amended: for every bundle whose three gamma denominators
are nonzero (so that the gamma power introduces no NaN — see C10 and
the C5 counterexample for what happens otherwise), parsing the
generated size-17 LUT succeeds with a 17*17*17*3 grid, and every stored
value is within 1e-5 of the engine evaluation at the same grid
coordinate (blue fastest, green next, red slowest). -/
theorem lut_roundtrip_amended (p : GradingParams) (hγ : ∀ ch, gammaOf p ch ≠ 0) :
    ∃ d : List (Option ℝ),
      parseCubeLUT (generateCubeLUTjs p 17) = some (17, d) ∧
      d.length = 17 * 17 * 17 * 3 ∧
      ∀ ri gi bi ch : ℕ, ri < 17 → gi < 17 → bi < 17 → ch < 3 →
        ∃ v : ℝ,
          d[3 * ((ri * 17 + gi) * 17 + bi) + ch]? = some (some v) ∧
          |v - tripleComp (applyGradingToPixel p ((ri : ℝ) / 16) ((gi : ℝ) / 16)
            ((bi : ℝ) / 16)) ch| ≤ 1 / 100000 := by
  rw [generateCubeLUTjs_eq p 17 hγ]
  have hmem : ∀ l ∈ lutGrid p 17, ∃ ps, l = CubeLine.dataLine ps ∧ pushOk ps = true := by
    intro l hl
    rw [lutGrid] at hl
    simp only [List.mem_flatMap, List.mem_singleton] at hl
    obtain ⟨ri, -, gi, -, bi, -, hl⟩ := hl
    exact ⟨_, hl, rfl⟩
  have hflat : (lutGrid p 17).flatMap CubeLine.parts = lutData p 17 := by
    rw [lutGrid, lutData]
    simp only [List.flatMap_assoc, List.flatMap_singleton, CubeLine.parts]
  have hlen : (lutData p 17).length = 17 * 17 * 17 * 3 := by
    rw [lutData, flatMap_const_length _ _ (17 * (17 * 3)) ?_, List.length_range]
    · intro a _
      rw [flatMap_const_length _ _ (17 * 3) ?_, List.length_range]
      intro x _
      rw [flatMap_const_length _ _ 3 ?_, List.length_range]
      intro y _
      rfl
  have hc : ∀ (l : List CubeLine) s d, parseLoop (CubeLine.comment :: l) s d = parseLoop l s d := by
    intro l s d; simp [parseLoop]
  have ht : ∀ (l : List CubeLine) s d, parseLoop (CubeLine.title :: l) s d = parseLoop l s d := by
    intro l s d; simp [parseLoop]
  have hsz : ∀ (l : List CubeLine) n s d,
      parseLoop (CubeLine.sizeDecl n :: l) s d = parseLoop l n d := by
    intro l n s d; simp [parseLoop]
  have hdm : ∀ (l : List CubeLine) s d, parseLoop (CubeLine.domainMin :: l) s d = parseLoop l s d := by
    intro l s d; simp [parseLoop]
  have hdM : ∀ (l : List CubeLine) s d, parseLoop (CubeLine.domainMax :: l) s d = parseLoop l s d := by
    intro l s d; simp [parseLoop]
  have hbl : ∀ (l : List CubeLine) s d, parseLoop (CubeLine.blank :: l) s d = parseLoop l s d := by
    intro l s d; simp [parseLoop]
  have hloop : parseLoop (generateCubeLUT p 17) (some 0) [] =
      (some 17, lutData p 17) := by
    rw [generateCubeLUT]
    simp only [List.cons_append, List.nil_append]
    rw [hc, ht, hsz, hdm, hdM, hbl, parseLoop_data _ _ _ hmem, List.nil_append, hflat]
    simp only [Prod.mk.injEq]
    norm_num
  refine ⟨lutData p 17, ?_, hlen, ?_⟩
  · have hcond : 0 < (17 : ℤ) ∧ ((lutData p 17).length : ℤ) = 17 * 17 * 17 * 3 := by
      rw [hlen]
      norm_num
    rw [parseCubeLUT, hloop, checkResult, if_pos hcond]
  · intro ri gi bi ch hri hgi hbi hch
    have h16 : ((17 : ℕ) : ℝ) - 1 = 16 := by norm_num
    have hv := lutData_getElem p 17 ri gi bi ch hri hgi hbi hch
    rw [h16] at hv
    refine ⟨toFixed6 (tripleComp (applyGradingToPixel p ((ri : ℝ) / 16) ((gi : ℝ) / 16)
      ((bi : ℝ) / 16)) ch), hv, ?_⟩
    have hb := toFixedDen_sub_abs_le 1000000 (by norm_num)
      (tripleComp (applyGradingToPixel p ((ri : ℝ) / 16) ((gi : ℝ) / 16) ((bi : ℝ) / 16)) ch)
    rw [toFixed6]
    calc |toFixedDen 1000000 (tripleComp (applyGradingToPixel p ((ri : ℝ) / 16)
          ((gi : ℝ) / 16) ((bi : ℝ) / 16)) ch) -
        tripleComp (applyGradingToPixel p ((ri : ℝ) / 16) ((gi : ℝ) / 16)
          ((bi : ℝ) / 16)) ch| ≤ 1 / (2 * (1000000 : ℕ)) := hb
      _ ≤ 1 / 100000 := by norm_num

/-- Witness for the amended C5 at the identity bundle (all gamma
denominators 1) and grid point (0,0,0). -/
theorem lut_roundtrip_amended_witness :
    (∀ ch, gammaOf DEFAULT_PARAMS ch ≠ 0) ∧
    ∃ d : List (Option ℝ),
      parseCubeLUT (generateCubeLUTjs DEFAULT_PARAMS 17) = some (17, d) ∧
      d.length = 17 * 17 * 17 * 3 ∧
      ∃ v : ℝ, d[3 * ((0 * 17 + 0) * 17 + 0) + 0]? = some (some v) ∧
        |v - tripleComp (applyGradingToPixel DEFAULT_PARAMS ((0 : ℕ) / 16) ((0 : ℕ) / 16)
          ((0 : ℕ) / 16)) 0| ≤ 1 / 100000 := by
  have hγ : ∀ ch, gammaOf DEFAULT_PARAMS ch ≠ 0 := by
    intro ch
    cases ch <;> norm_num [gammaOf, DEFAULT_PARAMS, ColorWheelValue.get]
  obtain ⟨d, h1, h2, h3⟩ := lut_roundtrip_amended DEFAULT_PARAMS hγ
  obtain ⟨v, hv1, hv2⟩ := h3 0 0 0 0 (by norm_num) (by norm_num) (by norm_num) (by norm_num)
  exact ⟨hγ, d, h1, h2, v, hv1, hv2⟩

/-- Counterexample to C2 as stated, in two parts.  (a) With contrast
100, pivot 0 and saturation 0 (all in range), the shader omits the
engine's post-contrast clamp, so on pixel (1,0,0) the saturation stage
sees luma 0.5315 instead of 0.2126 and the red channels differ by
0.3189, far above 1/255.  (b) With red lift 0.0000004 and red gamma
denominator 3 (all in range), the 6-decimal baking rounds the lift to
0, so on the black pixel the shader gives red 0 while the engine gives
0.0000004^(1/3), about 0.0074 — also above 1/255: the quantization of
the baked literals alone can break the claimed tolerance. -/
theorem shader_parity_counterexample :
    (InRange cexParamsShader ∧
      1 / 255 < |(shaderPixel cexParamsShader 1 0 0).1 -
        (applyGradingToPixel cexParamsShader 1 0 0).1|) ∧
    (InRange cexParamsQuant ∧
      1 / 255 < |(shaderPixel cexParamsQuant 0 0 0).1 -
        (applyGradingToPixel cexParamsQuant 0 0 0).1|) := by
  have tf0 : toFixed6 0 = 0 := toFixedDen_fix 1000000 (by norm_num) 0 0 (by norm_num)
  have tf1 : toFixed6 1 = 1 := toFixedDen_fix 1000000 (by norm_num) 1 1000000 (by norm_num)
  have c1 : clamp01 1 = 1 := clamp01_of_one_le 1 le_rfl
  have c0 : clamp01 0 = 0 := clamp01_of_nonpos 0 le_rfl
  have c52 : clamp01 (5 / 2) = 1 := clamp01_of_one_le _ (by norm_num)
  refine ⟨⟨?_, ?_⟩, ?_⟩
  · norm_num [InRange, cexParamsShader, DEFAULT_PARAMS, List.forall_mem_cons]
  · -- engine evaluation
    have h1 : stage1 cexParamsShader ((1 : ℝ), (0 : ℝ), (0 : ℝ)) = (1, 0, 0) := by
      rw [stage1]
      norm_num [cexParamsShader, DEFAULT_PARAMS, Real.rpow_zero]
    have hLGGid : ∀ (ch : Channel) (v : ℝ), applyLGG cexParamsShader ch v = clamp01 v := by
      intro ch v
      rw [applyLGG]
      cases ch <;>
        norm_num [lggRaw, liftOf, gainOf, gammaOf, cexParamsShader, DEFAULT_PARAMS,
          ColorWheelValue.get]
    have h2 : stage2 cexParamsShader ((1 : ℝ), (0 : ℝ), (0 : ℝ)) = (1, 0, 0) := by
      rw [stage2]
      norm_num [hLGGid, c1, c0]
    have h3 : stage3 cexParamsShader ((1 : ℝ), (0 : ℝ), (0 : ℝ)) = (1, 0, 0) := by
      rw [stage3]
      norm_num [cexParamsShader, DEFAULT_PARAMS]
    have hcraw1 : contrastRaw cexParamsShader 1 = 5 / 2 := by
      norm_num [contrastRaw, cexParamsShader, DEFAULT_PARAMS]
    have hcraw0 : contrastRaw cexParamsShader 0 = 0 := by
      norm_num [contrastRaw, cexParamsShader, DEFAULT_PARAMS]
    have h4 : stage4 cexParamsShader ((1 : ℝ), (0 : ℝ), (0 : ℝ)) = (1, 0, 0) := by
      rw [stage4, if_pos (by norm_num [cexParamsShader, DEFAULT_PARAMS])]
      norm_num [hcraw1, hcraw0, c52, c0]
    have h5 : stage5 cexParamsShader ((1 : ℝ), (0 : ℝ), (0 : ℝ)) = (0.2126, 0.2126, 0.2126) := by
      rw [stage5, if_pos (by norm_num [cexParamsShader, DEFAULT_PARAMS])]
      norm_num [luma709, cexParamsShader, DEFAULT_PARAMS]
    have h6 : ∀ c, stage6 cexParamsShader c = c := by
      intro c
      rw [stage6]
      norm_num [hasSMH, cexParamsShader, DEFAULT_PARAMS]
    have hEng : applyGradingToPixel cexParamsShader 1 0 0 = (0.2126, 0.2126, 0.2126) := by
      rw [applyGradingToPixel]
      simp only [h1, h2, h3, h4, h5, h6]
      norm_num [clamp01_eq_self]
    -- shader evaluation
    have s1 : shStage1 cexParamsShader ((1 : ℝ), (0 : ℝ), (0 : ℝ)) = (1, 0, 0) := by
      rw [shStage1]
      norm_num [cexParamsShader, DEFAULT_PARAMS, Real.rpow_zero, tf1]
    have hch : ∀ c : ℝ, shLGGchannel 0 1 1 c = clamp01 c := by
      intro c
      rw [shLGGchannel]
      norm_num [Real.rpow_one]
    have s2 : shStage2 cexParamsShader ((1 : ℝ), (0 : ℝ), (0 : ℝ)) = (1, 0, 0) := by
      rw [shStage2]
      norm_num [liftOf, gainOf, gammaOf, cexParamsShader, DEFAULT_PARAMS,
        ColorWheelValue.get, tf0, tf1, hch, c1, c0]
    have s3 : shStage3 cexParamsShader ((1 : ℝ), (0 : ℝ), (0 : ℝ)) = (1, 0, 0) := by
      rw [shStage3]
      norm_num [cexParamsShader, DEFAULT_PARAMS]
    have s4 : shStage4 cexParamsShader ((1 : ℝ), (0 : ℝ), (0 : ℝ)) = (5 / 2, 0, 0) := by
      rw [shStage4, if_pos (by norm_num [cexParamsShader, DEFAULT_PARAMS])]
      norm_num [cexParamsShader, DEFAULT_PARAMS, tf0, tf1]
    have s5 : shStage5 cexParamsShader ((5 / 2 : ℝ), (0 : ℝ), (0 : ℝ)) =
        (0.5315, 0.5315, 0.5315) := by
      rw [shStage5, if_pos (by norm_num [cexParamsShader, DEFAULT_PARAMS])]
      norm_num [luma709, cexParamsShader, DEFAULT_PARAMS, tf0]
    have s6 : ∀ c, shStage6 cexParamsShader c = c := by
      intro c
      rw [shStage6]
      norm_num [hasSMH, cexParamsShader, DEFAULT_PARAMS]
    have hSh : shaderPixel cexParamsShader 1 0 0 = (0.5315, 0.5315, 0.5315) := by
      rw [shaderPixel]
      simp only [s1, s2, s3, s4, s5, s6]
      norm_num [clamp01_eq_self]
    rw [hSh, hEng]
    rw [show ((0.5315 : ℝ), (0.5315 : ℝ), (0.5315 : ℝ)).1 = 0.5315 from rfl,
      show ((0.2126 : ℝ), (0.2126 : ℝ), (0.2126 : ℝ)).1 = 0.2126 from rfl,
      show (0.5315 : ℝ) - 0.2126 = 0.3189 by norm_num,
      abs_of_nonneg (by norm_num : (0 : ℝ) ≤ 0.3189)]
    norm_num
  · -- part (b): the baked lift is quantized to 0
    have hA0 : (0 : ℝ) ≤ (0.0000004 : ℝ) ^ ((1 : ℝ) / 3) :=
      Real.rpow_nonneg (by norm_num) _
    have hA1 : (0.0000004 : ℝ) ^ ((1 : ℝ) / 3) ≤ 1 :=
      Real.rpow_le_one (by norm_num) (by norm_num) (by norm_num)
    have cA : clamp01 ((0.0000004 : ℝ) ^ ((1 : ℝ) / 3)) = (0.0000004 : ℝ) ^ ((1 : ℝ) / 3) :=
      clamp01_eq_self _ hA0 hA1
    constructor
    · norm_num [InRange, cexParamsQuant, DEFAULT_PARAMS, List.forall_mem_cons]
    · -- engine evaluation
      have q1 : stage1 cexParamsQuant ((0 : ℝ), (0 : ℝ), (0 : ℝ)) = (0, 0, 0) := by
        rw [stage1]
        norm_num [cexParamsQuant, DEFAULT_PARAMS, Real.rpow_zero]
      have qLGGr : applyLGG cexParamsQuant Channel.r 0 = (0.0000004 : ℝ) ^ ((1 : ℝ) / 3) := by
        rw [applyLGG]
        have hγr : gammaOf cexParamsQuant Channel.r = 3 := by
          norm_num [gammaOf, cexParamsQuant, DEFAULT_PARAMS, ColorWheelValue.get]
        have hraw : lggRaw cexParamsQuant Channel.r 0 = 0.0000004 := by
          norm_num [lggRaw, liftOf, gainOf, cexParamsQuant, DEFAULT_PARAMS, ColorWheelValue.get]
        simp only [hγr, hraw]
        rw [if_pos ⟨by norm_num, by norm_num⟩]
        exact clamp01_eq_self _ (Real.rpow_nonneg (by norm_num) _)
          (Real.rpow_le_one (by norm_num) (by norm_num) (by norm_num))
      have qLGGg : applyLGG cexParamsQuant Channel.g 0 = 0 := by
        rw [applyLGG]
        have hraw : lggRaw cexParamsQuant Channel.g 0 = 0 := by
          norm_num [lggRaw, liftOf, gainOf, cexParamsQuant, DEFAULT_PARAMS, ColorWheelValue.get]
        simp only [hraw]
        rw [if_neg (fun h => lt_irrefl 0 h.2)]
        exact c0
      have qLGGb : applyLGG cexParamsQuant Channel.b 0 = 0 := by
        rw [applyLGG]
        have hraw : lggRaw cexParamsQuant Channel.b 0 = 0 := by
          norm_num [lggRaw, liftOf, gainOf, cexParamsQuant, DEFAULT_PARAMS, ColorWheelValue.get]
        simp only [hraw]
        rw [if_neg (fun h => lt_irrefl 0 h.2)]
        exact c0
      have q2 : stage2 cexParamsQuant ((0 : ℝ), (0 : ℝ), (0 : ℝ)) =
          ((0.0000004 : ℝ) ^ ((1 : ℝ) / 3), 0, 0) := by
        rw [stage2]
        simp [qLGGr, qLGGg, qLGGb]
      have q3 : ∀ c, stage3 cexParamsQuant c = c := by
        intro c; rw [stage3]; norm_num [cexParamsQuant, DEFAULT_PARAMS]
      have q4 : ∀ c, stage4 cexParamsQuant c = c := by
        intro c; rw [stage4]; norm_num [cexParamsQuant, DEFAULT_PARAMS]
      have q5 : ∀ c, stage5 cexParamsQuant c = c := by
        intro c; rw [stage5]; norm_num [cexParamsQuant, DEFAULT_PARAMS]
      have q6 : ∀ c, stage6 cexParamsQuant c = c := by
        intro c; rw [stage6]; norm_num [hasSMH, cexParamsQuant, DEFAULT_PARAMS]
      have qEng : applyGradingToPixel cexParamsQuant 0 0 0 =
          ((0.0000004 : ℝ) ^ ((1 : ℝ) / 3), 0, 0) := by
        rw [applyGradingToPixel]
        simp only [q1, q2, q3, q4, q5, q6]
        simp [cA, c0]
        exact clamp01_eq_self _ (Real.rpow_nonneg (by norm_num) _)
          (Real.rpow_le_one (by norm_num) (by norm_num) (by norm_num))
      -- shader evaluation
      have tq : toFixed6 0.0000004 = 0 := by
        have h := toFixedDen_eval 1000000 0.0000004 0 (by norm_num) (by norm_num)
        rw [toFixed6, h]
        norm_num
      have tthird : toFixed6 ((1 : ℝ) / 3) = 333333 / 1000000 := by
        have h := toFixedDen_eval 1000000 ((1 : ℝ) / 3) 333333 (by norm_num) (by norm_num)
        rw [toFixed6, h]
        norm_num
      have thalf : toFixed6 ((1 : ℝ) / 2) = 1 / 2 :=
        toFixedDen_fix 1000000 (by norm_num) _ 500000 (by norm_num)
      have hch0 : ∀ e : ℝ, e ≠ 0 → shLGGchannel 0 1 e 0 = 0 := by
        intro e he
        rw [shLGGchannel, show ((0 : ℝ) + 0 * (1 - 0)) * 1 = 0 by norm_num,
          clamp01_of_nonpos 0 le_rfl]
        exact Real.zero_rpow he
      have sq1 : shStage1 cexParamsQuant ((0 : ℝ), (0 : ℝ), (0 : ℝ)) = (0, 0, 0) := by
        rw [shStage1]
        norm_num [cexParamsQuant, DEFAULT_PARAMS, Real.rpow_zero, tf1]
      have sq2 : shStage2 cexParamsQuant ((0 : ℝ), (0 : ℝ), (0 : ℝ)) = (0, 0, 0) := by
        rw [shStage2]
        have hlr : liftOf cexParamsQuant Channel.r = 0.0000004 := by
          norm_num [liftOf, cexParamsQuant, DEFAULT_PARAMS, ColorWheelValue.get]
        have hlg : liftOf cexParamsQuant Channel.g = 0 := by
          norm_num [liftOf, cexParamsQuant, DEFAULT_PARAMS, ColorWheelValue.get]
        have hlb : liftOf cexParamsQuant Channel.b = 0 := by
          norm_num [liftOf, cexParamsQuant, DEFAULT_PARAMS, ColorWheelValue.get]
        have hgn : ∀ ch, gainOf cexParamsQuant ch = 1 := by
          intro ch
          cases ch <;> norm_num [gainOf, cexParamsQuant, DEFAULT_PARAMS, ColorWheelValue.get]
        have hgr : (1 : ℝ) / gammaOf cexParamsQuant Channel.r = 1 / 3 := by
          norm_num [gammaOf, cexParamsQuant, DEFAULT_PARAMS, ColorWheelValue.get]
        have hgg : (1 : ℝ) / gammaOf cexParamsQuant Channel.g = 1 / 2 := by
          norm_num [gammaOf, cexParamsQuant, DEFAULT_PARAMS, ColorWheelValue.get]
        have hgb : (1 : ℝ) / gammaOf cexParamsQuant Channel.b = 1 / 2 := by
          norm_num [gammaOf, cexParamsQuant, DEFAULT_PARAMS, ColorWheelValue.get]
        rw [hlr, hlg, hlb, hgn Channel.r, hgn Channel.g, hgn Channel.b, hgr, hgg, hgb,
          tq, tf0, tf1, tthird, thalf]
        simp [hch0 (333333 / 1000000 : ℝ) (by norm_num), hch0 ((1 : ℝ) / 2) (by norm_num)]
        all_goals exact hch0 _ (by norm_num)
      have sq3 : ∀ c, shStage3 cexParamsQuant c = c := by
        intro c; rw [shStage3]; norm_num [cexParamsQuant, DEFAULT_PARAMS]
      have sq4 : ∀ c, shStage4 cexParamsQuant c = c := by
        intro c; rw [shStage4]; norm_num [cexParamsQuant, DEFAULT_PARAMS]
      have sq5 : ∀ c, shStage5 cexParamsQuant c = c := by
        intro c; rw [shStage5]; norm_num [cexParamsQuant, DEFAULT_PARAMS]
      have sq6 : ∀ c, shStage6 cexParamsQuant c = c := by
        intro c; rw [shStage6]; norm_num [hasSMH, cexParamsQuant, DEFAULT_PARAMS]
      have qSh : shaderPixel cexParamsQuant 0 0 0 = (0, 0, 0) := by
        rw [shaderPixel]
        simp only [sq1, sq2, sq3, sq4, sq5, sq6]
        simp [c0]
      -- the difference is the engine value, which exceeds 1/255
      have hA3 : ((0.0000004 : ℝ) ^ ((1 : ℝ) / 3)) ^ (3 : ℕ) = 0.0000004 := by
        rw [← Real.rpow_natCast ((0.0000004 : ℝ) ^ ((1 : ℝ) / 3)) 3,
          ← Real.rpow_mul (by norm_num : (0 : ℝ) ≤ 0.0000004),
          show (1 : ℝ) / 3 * ((3 : ℕ) : ℝ) = 1 by push_cast; norm_num,
          Real.rpow_one]
      have hkey : (1 / 255 : ℝ) < (0.0000004 : ℝ) ^ ((1 : ℝ) / 3) := by
        refine lt_of_pow_lt_pow_left₀ 3 hA0 ?_
        rw [hA3]
        norm_num
      rw [qSh, qEng,
        show ((0 : ℝ), (0 : ℝ), (0 : ℝ)).1 = 0 from rfl,
        show (((0.0000004 : ℝ) ^ ((1 : ℝ) / 3), (0 : ℝ), (0 : ℝ))).1 =
          (0.0000004 : ℝ) ^ ((1 : ℝ) / 3) from rfl,
        zero_sub, abs_neg, abs_of_nonneg hA0]
      exact hkey

/-- Claim C2 amended: the per-pixel shader evaluation equals the engine
evaluation exactly for every in-range bundle and pixel, provided the
baked 6-decimal literals are exact, every gamma denominator is positive,
every LGG intermediate is at most 1, and (when contrast is active) the
unclamped contrast outputs stay in [0,1] — the conditions under which
the shader's clamp-before-power and missing post-contrast clamp cannot
diverge from the engine. -/
theorem shader_parity_amended (p : GradingParams) (r g b : ℝ)
    (_hpr : InRange p)
    (_hr : 0 ≤ r ∧ r ≤ 1) (_hg : 0 ≤ g ∧ g ≤ 1) (_hb : 0 ≤ b ∧ b ≤ 1)
    (hbake : BakeExact p)
    (hγ : ∀ ch, 0 < gammaOf p ch)
    (hcon : p.contrast ≠ 0 →
      (0 ≤ contrastRaw p (stage3 p (stage2 p (stage1 p (r, g, b)))).1 ∧
        contrastRaw p (stage3 p (stage2 p (stage1 p (r, g, b)))).1 ≤ 1) ∧
      (0 ≤ contrastRaw p (stage3 p (stage2 p (stage1 p (r, g, b)))).2.1 ∧
        contrastRaw p (stage3 p (stage2 p (stage1 p (r, g, b)))).2.1 ≤ 1) ∧
      (0 ≤ contrastRaw p (stage3 p (stage2 p (stage1 p (r, g, b)))).2.2 ∧
        contrastRaw p (stage3 p (stage2 p (stage1 p (r, g, b)))).2.2 ≤ 1)) :
    shaderPixel p r g b = applyGradingToPixel p r g b := by
  obtain ⟨hb1, hb2, hb3, hb4, hb5, hb6, hb7, hb8, hb9, hb10⟩ := hbake
  have e1 : shStage1 p (r, g, b) = stage1 p (r, g, b) := by
    rw [shStage1, stage1, hb1]
  have e2 : shStage2 p (stage1 p (r, g, b)) = stage2 p (stage1 p (r, g, b)) := by
    rw [shStage2, stage2, hb2 Channel.r, hb2 Channel.g, hb2 Channel.b,
      hb3 Channel.r, hb3 Channel.g, hb3 Channel.b,
      hb4 Channel.r, hb4 Channel.g, hb4 Channel.b,
      shLGG_eq_applyLGG p Channel.r _ (hγ Channel.r),
      shLGG_eq_applyLGG p Channel.g _ (hγ Channel.g),
      shLGG_eq_applyLGG p Channel.b _ (hγ Channel.b)]
  have e3 : shStage3 p (stage2 p (stage1 p (r, g, b))) =
      stage3 p (stage2 p (stage1 p (r, g, b))) := by
    rw [shStage3, stage3, hb5, hb6]
  have e4 : shStage4 p (stage3 p (stage2 p (stage1 p (r, g, b)))) =
      stage4 p (stage3 p (stage2 p (stage1 p (r, g, b)))) := by
    rw [shStage4, stage4, hb7, hb8]
    by_cases hcz : p.contrast = 0
    · rw [if_neg (fun h => h hcz), if_neg (fun h => h hcz)]
    · obtain ⟨hc1, hc2, hc3⟩ := hcon hcz
      rw [if_pos hcz, if_pos hcz,
        clamp01_eq_self _ hc1.1 hc1.2, clamp01_eq_self _ hc2.1 hc2.2,
        clamp01_eq_self _ hc3.1 hc3.2]
      rfl
  have e5 : shStage5 p (stage4 p (stage3 p (stage2 p (stage1 p (r, g, b))))) =
      stage5 p (stage4 p (stage3 p (stage2 p (stage1 p (r, g, b))))) := by
    rw [shStage5, stage5, hb9]
  have e6 : shStage6 p (stage5 p (stage4 p (stage3 p (stage2 p (stage1 p (r, g, b)))))) =
      stage6 p (stage5 p (stage4 p (stage3 p (stage2 p (stage1 p (r, g, b)))))) := by
    have hs := hb10 p.shadows (by simp)
    have hm := hb10 p.midtones (by simp)
    have hh := hb10 p.highlights (by simp)
    rw [shStage6, stage6, hs.1, hs.2.1, hs.2.2, hm.1, hm.2.1, hm.2.2, hh.1, hh.2.1, hh.2.2]
  rw [shaderPixel, applyGradingToPixel]
  simp only [e1, e2, e3, e4, e5, e6]

/-- Witness for the amended C2 at the identity bundle and pixel
(1/2, 1/2, 1/2). -/
theorem shader_parity_amended_witness :
    InRange DEFAULT_PARAMS ∧ BakeExact DEFAULT_PARAMS ∧
    shaderPixel DEFAULT_PARAMS (1 / 2) (1 / 2) (1 / 2) =
      applyGradingToPixel DEFAULT_PARAMS (1 / 2) (1 / 2) (1 / 2) := by
  have tf0 : toFixed6 0 = 0 := toFixedDen_fix 1000000 (by norm_num) 0 0 (by norm_num)
  have tf1 : toFixed6 1 = 1 := toFixedDen_fix 1000000 (by norm_num) 1 1000000 (by norm_num)
  have hIR : InRange DEFAULT_PARAMS := by
    norm_num [InRange, DEFAULT_PARAMS, List.forall_mem_cons]
  have hBE : BakeExact DEFAULT_PARAMS := by
    refine ⟨?_, ?_, ?_, ?_, ?_, ?_, ?_, ?_, ?_, ?_⟩
    · rw [show DEFAULT_PARAMS.exposure = 0 from rfl, Real.rpow_zero]
      exact tf1
    · intro ch
      have h : liftOf DEFAULT_PARAMS ch = 0 := by
        cases ch <;> norm_num [liftOf, DEFAULT_PARAMS, ColorWheelValue.get]
      rw [h]
      exact tf0
    · intro ch
      have h : gainOf DEFAULT_PARAMS ch = 1 := by
        cases ch <;> norm_num [gainOf, DEFAULT_PARAMS, ColorWheelValue.get]
      rw [h]
      exact tf1
    · intro ch
      have h : (1 : ℝ) / gammaOf DEFAULT_PARAMS ch = 1 := by
        cases ch <;> norm_num [gammaOf, DEFAULT_PARAMS, ColorWheelValue.get]
      rw [h]
      exact tf1
    · rw [show DEFAULT_PARAMS.temperature / 100 = (0 : ℝ) by norm_num [DEFAULT_PARAMS]]
      exact tf0
    · rw [show DEFAULT_PARAMS.tint / 100 = (0 : ℝ) by norm_num [DEFAULT_PARAMS]]
      exact tf0
    · rw [show DEFAULT_PARAMS.contrast / 100 = (0 : ℝ) by norm_num [DEFAULT_PARAMS]]
      exact tf0
    · rw [show DEFAULT_PARAMS.contrastPivot = (0.18 : ℝ) from rfl]
      exact toFixedDen_fix 1000000 (by norm_num) 0.18 180000 (by norm_num)
    · rw [show DEFAULT_PARAMS.saturation / 100 = (1 : ℝ) by norm_num [DEFAULT_PARAMS]]
      exact tf1
    · intro v hv
      have hv0 : v = ⟨0, 0, 0⟩ := by
        simpa [DEFAULT_PARAMS] using hv
      subst hv0
      refine ⟨?_, ?_, ?_⟩ <;>
        · rw [show ((0 : ℝ), (0 : ℝ), (0 : ℝ)).1 / 100 = (0 : ℝ) by norm_num]
          exact tf0
  have hγ : ∀ ch, 0 < gammaOf DEFAULT_PARAMS ch := by
    intro ch
    cases ch <;> norm_num [gammaOf, DEFAULT_PARAMS, ColorWheelValue.get]
  refine ⟨hIR, hBE, shader_parity_amended DEFAULT_PARAMS (1 / 2) (1 / 2) (1 / 2) hIR
    ⟨by norm_num, by norm_num⟩ ⟨by norm_num, by norm_num⟩ ⟨by norm_num, by norm_num⟩
    hBE hγ (fun h => absurd rfl h)⟩

/-- Witness for C8 at luma 0.2. -/
theorem smoothstep_weight_partition_witness :
    (0 ≤ (0.2 : ℝ) ∧ (0.2 : ℝ) ≤ 1) ∧
    0 ≤ shadowWeight 0.2 ∧ shadowWeight 0.2 ≤ 1 ∧
    0 ≤ shadowWeight 0.2 + midtoneWeight 0.2 + highlightWeight 0.2 ∧
    shadowWeight 0.2 + midtoneWeight 0.2 + highlightWeight 0.2 ≤ 1 := by
  obtain ⟨⟨h1, h2⟩, _, _, hsum⟩ :=
    smoothstep_weight_partition 0.2 (by norm_num) (by norm_num)
  obtain ⟨h3, h4⟩ := hsum (by norm_num)
  exact ⟨by norm_num, h1, h2, h3, h4⟩

end ColorGrader
